import Mathlib

/-!
Verification of the aileen3-agent turn-orchestration and event-correlation
layer against its natural-language specification.

The development shallowly embeds three source modules:

* `chat_ui/ui/event_mapping.py`  — the Event Correlator (`process_event`,
  `get_ordered_tool_messages` and their helper formatters);
* `agent_system/aileen3/assistant_loop_exit_agent.py` — the Loop Controller
  exit check (`AssistantLoopExitAgent`);
* `agent_system/aileen3/conditional_prep_agent.py` — the Turn Gate
  (`ConditionalPrepAgent`).

Python values flowing through the correlator are dynamically typed dicts,
lists, strings, bytes, numbers and None; they are modelled by the inductive
type `Json` below, together with Python truthiness (`truthy`) and the
Python `or` operator (`pyOr`).  Conventions of the embedding:

* Where the Python code would raise a runtime `TypeError`/`AttributeError`
  on an ill-shaped payload (for example a non-dict `args`), the model
  totalizes the function with a benign default.  No verified claim depends
  on such inputs.
* Python standard-library collaborators (`json.dumps`, `json.loads`,
  `base64.b64encode`) are modelled by executable Lean stand-ins with the
  same structure; their exact output text (for example indentation of the
  pretty-printer) is a presentation detail on which no claim depends — the
  spec itself declares body formatting a free presentation concern.
* Numbers are modelled as `Int`; no claim involves floating point.
-/

/-- Model of a dynamically typed Python value (dict / list / str / bytes /
int / bool / None) as it flows through the event-correlation code. -/
inductive Json where
  | null : Json
  | bool : Bool → Json
  | num : Int → Json
  | str : String → Json
  | bytes : List Nat → Json
  | arr : List Json → Json
  | obj : List (String × Json) → Json

/-- Lookup in an association list (model of Python dict read). -/
def lookupA {α : Type} : List (String × α) → String → Option α
  | [], _ => none
  | (k0, v0) :: rest, k => if k0 = k then some v0 else lookupA rest k

/-- Insert/overwrite in an association list, keeping insertion order as a
Python dict does: an existing key is updated in place, a new key is
appended at the end. -/
def insertA {α : Type} : List (String × α) → String → α → List (String × α)
  | [], k, v => [(k, v)]
  | (k0, v0) :: rest, k, v =>
      if k0 = k then (k, v) :: rest else (k0, v0) :: insertA rest k v

/-- Python truthiness of a value (`bool(x)`). -/
def truthy : Json → Bool
  | .null => false
  | .bool b => b
  | .num n => n != 0
  | .str s => s ≠ ""
  | .bytes bs => !bs.isEmpty
  | .arr xs => !xs.isEmpty
  | .obj kvs => !kvs.isEmpty

/-- Python `a or b`. -/
def pyOr (a b : Json) : Json := if truthy a then a else b

/-- Python `d.get(k)`: `None` when `d` is not a dict or the key is absent. -/
def Json.get (j : Json) (k : String) : Json :=
  match j with
  | .obj kvs => (lookupA kvs k).getD .null
  | _ => .null

/-- Python `d.get(k, default)`: the default applies only when the key is
absent, not when it maps to `None`. -/
def Json.getOr (j : Json) (k : String) (d : Json) : Json :=
  match j with
  | .obj kvs => (lookupA kvs k).getD d
  | _ => d

/-- Python `k in d` for a dict. -/
def Json.hasKey (j : Json) (k : String) : Bool :=
  match j with
  | .obj kvs => (lookupA kvs k).isSome
  | _ => false

/-- Python dict assignment `d[k] = v` (update in place or append). -/
def objSet (j : Json) (k : String) (v : Json) : Json :=
  match j with
  | .obj kvs => .obj (insertA kvs k v)
  | _ => .obj [(k, v)]

/-- Python `x == s` for a string literal `s`: true only for an equal
string value. -/
def Json.eqStr (j : Json) (s : String) : Bool :=
  match j with
  | .str t => t == s
  | _ => false

/-- Python `x is None`. -/
def Json.isNull : Json → Bool
  | .null => true
  | _ => false

/-- Python `x is False`. -/
def Json.isFalse : Json → Bool
  | .bool false => true
  | _ => false

/-- Python `isinstance(x, dict)`. -/
def Json.isObj : Json → Bool
  | .obj _ => true
  | _ => false

/-- Python `isinstance(x, str)`. -/
def Json.isStr : Json → Bool
  | .str _ => true
  | _ => false

/-- Python `isinstance(x, (int, float))`. -/
def Json.isNum : Json → Bool
  | .num _ => true
  | _ => false

mutual

/-- Rendering of a value, modelling Python `str(x)`.  Exact for the cases
the repository interpolates into f-strings (strings, ints, bools, None);
container rendering is an approximation of the CPython repr, on which
nothing verified depends. -/
def pyStr : Json → String
  | .null => "None"
  | .bool b => if b then "True" else "False"
  | .num n => toString n
  | .str s => s
  | .bytes _ => "bytes"
  | .arr xs => "[" ++ pyStrL xs ++ "]"
  | .obj kvs => "\x7b" ++ pyStrO kvs ++ "\x7d"

/-- `pyStr` over the elements of a list, comma separated. -/
def pyStrL : List Json → String
  | [] => ""
  | [x] => pyStr x
  | x :: y :: xs => pyStr x ++ ", " ++ pyStrL (y :: xs)

/-- `pyStr` over dict entries, comma separated. -/
def pyStrO : List (String × Json) → String
  | [] => ""
  | [(k, v)] => k ++ ": " ++ pyStr v
  | (k, v) :: kv :: kvs => k ++ ": " ++ pyStr v ++ ", " ++ pyStrO (kv :: kvs)

end

/-- Coerce an expected-string value to `String` (`str` stays itself, other
shapes fall back to `str(x)`). -/
def jStrOf (j : Json) : String :=
  match j with
  | .str s => s
  | _ => pyStr j

/-- A value used as a Python dict key; the repository only ever uses string
keys here. -/
def jsonKey (j : Json) : String := jStrOf j

mutual

/-- Model of `json.dumps(x)`: fails (raising `TypeError` in Python)
exactly on unserializable `bytes`; the whitespace of the rendering differs
from CPython `indent=2` output, which no claim observes. -/
def dumpJson : Json → Option String
  | .null => some ("null")
  | .bool b => some (if b then "true" else "false")
  | .num n => some (toString n)
  | .str s => some ("\"" ++ s ++ "\"")
  | .bytes _ => none
  | .arr xs => (dumpJsonL xs).map (fun s => "[" ++ s ++ "]")
  | .obj kvs => (dumpJsonO kvs).map (fun s => "\x7b" ++ s ++ "\x7d")

/-- `dumpJson` over list elements. -/
def dumpJsonL : List Json → Option String
  | [] => some ("")
  | [x] => dumpJson x
  | x :: y :: xs => do
      let a ← dumpJson x
      let b ← dumpJsonL (y :: xs)
      pure (a ++ ", " ++ b)

/-- `dumpJson` over dict entries. -/
def dumpJsonO : List (String × Json) → Option String
  | [] => some ("")
  | [(k, v)] => (dumpJson v).map (fun s => "\"" ++ k ++ "\": " ++ s)
  | (k, v) :: kv :: kvs => do
      let a ← dumpJson v
      let b ← dumpJsonO (kv :: kvs)
      pure ("\"" ++ k ++ "\": " ++ a ++ ", " ++ b)

end

/-- `_pretty_json` (event_mapping.py): `json.dumps(obj, indent=2, ...)`
with a `str(obj)` fallback on `TypeError`. -/
def pretty_json (j : Json) : String := (dumpJson j).getD (pyStr j)

/-- The base64 alphabet. -/
def b64_chars : List Char :=
  ("ABCDEFGHIJKLMNOPQRSTUVWXYZabcdefghijklmnopqrstuvwxyz0123456789+/").toList

/-- Character of the base64 alphabet at index `n`. -/
def b64_char (n : Nat) : Char := (b64_chars.drop n).headD ( 'A' )

/-- Model of `base64.b64encode` over byte lists. -/
def b64encode : List Nat → String
  | [] => ""
  | [a] =>
      let a := a % 256
      String.mk [b64_char (a / 4), b64_char (a % 4 * 16)] ++ "=="
  | [a, b] =>
      let a := a % 256
      let b := b % 256
      String.mk [b64_char (a / 4), b64_char (a % 4 * 16 + b / 16),
                 b64_char (b % 16 * 4)] ++ "="
  | a :: b :: c :: rest =>
      let a := a % 256
      let b := b % 256
      let c := c % 256
      String.mk [b64_char (a / 4), b64_char (a % 4 * 16 + b / 16),
                 b64_char (b % 16 * 4 + c / 64), b64_char (c % 64)] ++
        b64encode rest

/-- An ASCII whitespace character (the cases Python `strip` removes that
occur in this codebase). -/
def isWsChar (c : Char) : Bool :=
  c == ' ' || c == '\t' || c == '\n' || c == '\r'

/-- Drop leading whitespace characters. -/
def dropLeadWs : List Char → List Char
  | [] => []
  | c :: cs => if isWsChar c then dropLeadWs cs else c :: cs

/-- Model of Python `str.strip()`. -/
def pyStrip (s : String) : String :=
  String.mk ((dropLeadWs (dropLeadWs s.toList).reverse).reverse)

/-- `listIsPre pre cs` holds when `pre` is an initial segment of `cs`. -/
def listIsPre : List Char → List Char → Bool
  | [], _ => true
  | _ :: _, [] => false
  | c :: cs, d :: ds => c == d && listIsPre cs ds

/-- Model of Python `str.startswith(prefix)` / Lean `String.startsWith`,
kept kernel-reducible. -/
def strStartsWith (s pre : String) : Bool := listIsPre pre.toList s.toList

/-- Model of Python `str.capitalize()` (first character upper, rest
lower). -/
def pyCapitalize (s : String) : String :=
  match s.toList with
  | [] => ""
  | c :: cs => String.mk (c.toUpper :: cs.map Char.toLower)

/-- `_snake_to_title` (event_mapping.py). -/
def snake_to_title (name : String) : String :=
  String.intercalate (" ")
    (((name.splitOn ("_")).filter (fun c => c ≠ "")).map pyCapitalize)

/-- Index of the first occurrence of a character (Python `str.find`). -/
def find_char_idx : List Char → Char → Option Nat
  | [], _ => none
  | c :: cs, t => if c = t then some 0 else (find_char_idx cs t).map (· + 1)

/-- Index of the last occurrence of a character (Python `str.rfind`). -/
def rfind_char_idx (cs : List Char) (t : Char) : Option Nat :=
  match find_char_idx cs.reverse t with
  | none => none
  | some i => some (cs.length - 1 - i)

/-- `_strip_simple_xml` (event_mapping.py): best-effort stripping of a
single tag wrapper. -/
def strip_simple_xml (text : String) : String :=
  let cs := text.toList
  match find_char_idx cs ( '>' ), rfind_char_idx cs ( '<' ) with
  | some a, some b =>
      if b > a then
        let inner := pyStrip (String.mk ((cs.drop (a + 1)).take (b - (a + 1))))
        if inner ≠ "" then inner else text
      else text
  | _, _ => text

/-- The opening-brace character, written via its code point to keep brace
characters out of literals. -/
def braceOpen : Char := Char.ofNat 123

/-- The closing-brace character. -/
def braceClose : Char := Char.ofNat 125

/-- Skip JSON whitespace. -/
def skipWs : List Char → List Char
  | c :: cs => if c = ' ' ∨ c = '\n' ∨ c = '\t' ∨ c = '\r' then skipWs cs else c :: cs
  | [] => []

/-- Read the body of a JSON string up to the closing quote; escapes are not
supported (the model fails on them, sending Python into the exception
branch). -/
def readStrBody : List Char → Option (String × List Char)
  | [] => none
  | c :: cs =>
      if c = '"' then some ("", cs)
      else if c = '\\' then none
      else (readStrBody cs).map (fun r => (String.mk [c] ++ r.1, r.2))

/-- Read a run of decimal digits. -/
def readDigits : List Char → String × List Char
  | [] => ("", [])
  | c :: cs =>
      if c.isDigit then
        let r := readDigits cs
        (String.mk [c] ++ r.1, r.2)
      else ("", c :: cs)

mutual

/-- Fueled model of `json.loads` value reading.  It recognizes a common
subset of JSON (null, booleans, integers, escape-free strings, arrays,
objects); anything else is `none`, which the caller treats as the Python
exception branch.  No verified claim depends on the body text this feeds. -/
def jsonLoadsV : Nat → List Char → Option (Json × List Char)
  | 0, _ => none
  | fuel + 1, input =>
    match skipWs input with
    | 'n' :: 'u' :: 'l' :: 'l' :: rest => some (.null, rest)
    | 't' :: 'r' :: 'u' :: 'e' :: rest => some (.bool true, rest)
    | 'f' :: 'a' :: 'l' :: 's' :: 'e' :: rest => some (.bool false, rest)
    | '"' :: rest => (readStrBody rest).map (fun r => (.str r.1, r.2))
    | '-' :: rest =>
        (let r := readDigits rest
         if r.1 = "" then none
         else match r.2 with
         | '.' :: _ => none
         | 'e' :: _ => none
         | 'E' :: _ => none
         | _ => (r.1.toNat?).map (fun n => (.num (-(n : Int)), r.2)))
    | '[' :: rest =>
        (match skipWs rest with
         | ']' :: rest2 => some (.arr [], rest2)
         | rest2 => jsonLoadsItems fuel rest2 |>.map (fun r => (.arr r.1, r.2)))
    | c :: rest =>
        if c = braceOpen then
          (match skipWs rest with
           | d :: rest2 =>
               if d = braceClose then some (.obj [], rest2)
               else jsonLoadsPairs fuel (d :: rest2) |>.map (fun r => (.obj r.1, r.2))
           | [] => none)
        else if c.isDigit then
          (let r := readDigits (c :: rest)
           match r.2 with
           | '.' :: _ => none
           | 'e' :: _ => none
           | 'E' :: _ => none
           | _ => (r.1.toNat?).map (fun n => (.num (n : Int), r.2)))
        else none
    | [] => none

/-- Comma-separated JSON array items. -/
def jsonLoadsItems : Nat → List Char → Option (List Json × List Char)
  | 0, _ => none
  | fuel + 1, input => do
      let (v, rest) ← jsonLoadsV fuel input
      match skipWs rest with
      | ',' :: rest2 => (jsonLoadsItems fuel rest2).map (fun r => (v :: r.1, r.2))
      | ']' :: rest2 => some ([v], rest2)
      | _ => none

/-- Comma-separated JSON object entries. -/
def jsonLoadsPairs : Nat → List Char → Option (List (String × Json) × List Char)
  | 0, _ => none
  | fuel + 1, input => do
      match skipWs input with
      | '"' :: rest => do
          let (k, rest2) ← readStrBody rest
          match skipWs rest2 with
          | ':' :: rest3 => do
              let (v, rest4) ← jsonLoadsV fuel rest3
              match skipWs rest4 with
              | ',' :: rest5 =>
                  (jsonLoadsPairs fuel rest5).map (fun r => ((k, v) :: r.1, r.2))
              | d :: rest5 =>
                  if d = braceClose then some ([(k, v)], rest5) else none
              | [] => none
          | _ => none
      | _ => none

end

/-- Model of `json.loads(s)`, `none` standing for a raised exception. -/
def jsonLoads (s : String) : Option Json :=
  match jsonLoadsV (s.length + 1) s.toList with
  | some (v, rest) => if skipWs rest = [] then some v else none
  | none => none

/-- `_tool_label` (event_mapping.py): `(emoji, human_label)` for a tool
function name. -/
def tool_label (name : String) : String × String :=
  if name = "get_factual_memory" then ("📚", "Memory lookup")
  else if name = "start_media_retrieval" then ("📺", "Load media")
  else if name = "start_media_analysis" then ("🔍", "Analyze media")
  else if name = "get_media_analysis_result" then ("🔍", "Analyze media")
  else ("🛠️", snake_to_title name)

/-- The `f"(emoji) (label)"` title string built at both call sites. -/
def tool_title (name : String) : String :=
  (tool_label name).1 ++ " " ++ (tool_label name).2

/-- `_format_args_markdown` (event_mapping.py).  A non-dict `args` would
raise in Python; the model totalizes it to the no-arguments text. -/
def format_args_markdown (args : Json) : String :=
  match args with
  | .obj [] => "_No arguments._"
  | .obj kvs =>
      String.intercalate ("\n")
        (("**Input**") ::
          kvs.map (fun kv =>
            let pretty_value :=
              match kv.2 with
              | .obj _ => pretty_json kv.2
              | .arr _ => pretty_json kv.2
              | v => pyStr v
            "- **" ++ kv.1 ++ "**: " ++ pretty_value))
  | _ => "_No arguments._"

/-- The `add_field` closure of `_format_media_analysis_args`. -/
def analysis_add_field (priors : Json) (key label : String) : List String :=
  let value := priors.get key
  if !truthy value then []
  else
    let text := pyStrip (pyStr value)
    if text = "" then [] else ["", "**" ++ label ++ "**", "", text]

/-- `_format_media_analysis_args` (event_mapping.py). -/
def format_media_analysis_args (args : Json) : String :=
  let reference := args.get ("reference")
  let priors := pyOr (args.get ("priors")) (.obj [])
  let lines0 : List String :=
    if truthy reference then ["**Media reference:** `" ++ pyStr reference ++ "`"]
    else []
  let lines :=
    if priors.isObj && truthy priors then
      lines0 ++ analysis_add_field priors ("context") ("Context")
             ++ analysis_add_field priors ("expectations") ("Expectations")
             ++ analysis_add_field priors ("prior_knowledge") ("Prior knowledge")
             ++ analysis_add_field priors ("questions") ("Questions")
    else if lines0.isEmpty then ["_No briefing details provided._"]
    else lines0
  if lines.isEmpty then "_No input provided._"
  else String.intercalate ("\n") lines

/-- `_extract_structured` (event_mapping.py): `structuredContent` of a tool
response when it is a dict, else `None`. -/
def extract_structured (response : Json) : Json :=
  match response with
  | .obj _ =>
      let s := response.get ("structuredContent")
      if s.isObj then s else .null
  | _ => .null

/-- `_parse_text_content` (event_mapping.py): the first truthy
`response.content[...].text` of a text-typed item, else `None`. -/
def parse_text_content (response : Json) : Option Json :=
  match response with
  | .obj _ =>
      (match pyOr (response.get ("content")) (.arr []) with
       | .arr items =>
           items.findSome? (fun item =>
             if !item.isObj then none
             else if !(item.get ("type")).eqStr ("text") then none
             else
               let tv := pyOr (item.get ("text")) (.str "")
               if truthy tv then some tv else none)
       | _ => none)
  | _ => none

/-- `_format_get_factual_memory_body` (event_mapping.py). -/
def format_get_factual_memory_body (response : Json) : String :=
  match response.get ("result") with
  | .str s => "**Memory lookup result**\n\n" ++ strip_simple_xml s
  | _ => "**Memory lookup result**\n\n```json\n" ++ pretty_json response ++ "\n```"

/-- `_format_media_retrieval_body` (event_mapping.py). -/
def format_media_retrieval_body (structured : Json) : String :=
  let reference := structured.get ("reference")
  let status_label := structured.get ("status")
  let cached := structured.get ("cached")
  let metadata_block := pyOr (structured.getOr ("metadata") (.obj [])) (.obj [])
  let title := metadata_block.get ("title")
  let source := pyOr (metadata_block.get ("source")) (structured.get ("source"))
  let duration := metadata_block.get ("duration")
  let channel := metadata_block.get ("channel")
  let description := metadata_block.get ("description")
  let lines : List String :=
    (if truthy title then ["**Title:** " ++ pyStr title] else []) ++
    (if truthy reference then ["**Reference:** `" ++ pyStr reference ++ "`"] else []) ++
    (if truthy source then ["**Source:** " ++ pyStr source] else []) ++
    (if !duration.isNull then ["**Duration:** " ++ pyStr duration ++ " seconds"] else []) ++
    (if truthy channel then ["**Channel:** " ++ pyStr channel] else []) ++
    (if !status_label.isNull then
       ["**Status:** `" ++ pyStr status_label ++ "`" ++
         (if !cached.isNull then ", cached: " ++ pyStr cached else "")]
     else []) ++
    (if truthy description then ["", jStrOf description] else [])
  if lines.isEmpty then "_No media details available._"
  else String.intercalate ("\n") lines

/-- The final `f"data:(mime);base64,(b64)"` assembly of `_data_uri_from`,
including the `image/png` default for a falsy mime. -/
def mk_data_uri (mime : Json) (b64 : String) : String :=
  let m := if truthy mime then pyStr mime else "image/png"
  "data:" ++ m ++ ";base64," ++ b64

/-- `_data_uri_from` (event_mapping.py): convert raw slide/image
representations into a data URI string. -/
def data_uri_from (value : Json) : Option String :=
  if !truthy value then none
  else
    match value with
    | .str s => if strStartsWith s ("data:") then some s else none
    | .bytes bs => some ("data:image/png;base64," ++ b64encode bs)
    | .obj _ =>
        let data := value.getOr ("data") .null
        let mime := pyOr (value.get ("mimeType")) (value.get ("mime_type"))
        if data.isNull then none
        else
          (match data with
           | .bytes bs => some (mk_data_uri mime (b64encode bs))
           | .str s =>
               if strStartsWith s ("data:") then some s
               else some (mk_data_uri mime s)
           | _ => none)
    | _ => none

/-- `_image_md_from_data_uri` (event_mapping.py). -/
def image_md_from_data_uri (data_uri : Json) (alt : String) : Option String :=
  match data_uri with
  | .str s =>
      if strStartsWith s ("data:") then
        some ("<img src=\"" ++ s ++ "\" alt=\"" ++ alt ++
              "\" style=\"max-width: 100%; width: 768px; height: auto;\" />")
      else none
  | _ => none

/-- `_fake_progress_bar` (event_mapping.py). -/
def fake_progress_bar (ticks : Nat) : String :=
  let blocks := ("▁▂▃▄▅▆▇█").toList
  let len := min (max ticks 1) blocks.length
  String.mk (blocks.take len) ++ " (thinking…) "

/-- `_format_media_analysis_body` (event_mapping.py). -/
def format_media_analysis_body (structured : Json) (progress_ticks : Option Nat) :
    String :=
  let status_label := structured.get ("status")
  let analysis := structured.get ("analysis")
  let lines : List String :=
    if analysis.isObj then
      let l0 :=
        (if truthy (analysis.get ("title")) then
           ["**Title:** " ++ pyStr (analysis.get ("title"))] else []) ++
        (if !(analysis.get ("slide_count")).isNull then
           ["**Slides:** " ++ pyStr (analysis.get ("slide_count"))] else []) ++
        (if truthy (analysis.get ("source")) then
           ["**Source:** " ++ pyStr (analysis.get ("source"))] else [])
      let analysis_text := analysis.get ("analysis")
      if truthy analysis_text then
        (if !l0.isEmpty then l0 ++ [""] else l0) ++ [jStrOf analysis_text]
      else l0
    else
      (if truthy status_label then
         ["**Status:** `" ++ pyStr status_label ++ "`"] else []) ++
      (if truthy (structured.get ("reference")) then
         ["**Reference:** `" ++ pyStr (structured.get ("reference")) ++ "`"] else []) ++
      (match progress_ticks with
       | some t => ["**Progress:** " ++ fake_progress_bar t]
       | none => ["_Media analysis in progress..._"])
  let lines :=
    if truthy status_label && !status_label.eqStr ("done") &&
       !(lines.any (fun l => strStartsWith l ("**Status:**"))) then
      ("**Status:** `" ++ pyStr status_label ++ "`") :: lines
    else lines
  String.intercalate ("\n") lines

/-- The key loop inside `_normalize_slide_entries`: try
`image`/`image_content`/`content` in order and store the first decodable
data URI under `image_data_uri`. -/
def slide_try_keys (entry : Json) : List String → Json
  | [] => entry
  | k :: ks =>
      if entry.hasKey k then
        (match data_uri_from (entry.get k) with
         | some d => objSet entry ("image_data_uri") (.str d)
         | none => slide_try_keys entry ks)
      else slide_try_keys entry ks

/-- The per-candidate body of `_normalize_slide_entries`: build the entry
dict (with `image_data_uri` and a defaulted `index`) for one raw slide. -/
def slide_entry_of (idx : Nat) (raw : Json) : Option Json :=
  match raw with
  | .obj _ =>
      let entry :=
        if truthy (raw.get ("image_data_uri")) then raw
        else slide_try_keys raw [("image"), ("image_content"), ("content")]
      let entry :=
        if entry.hasKey ("index") then entry
        else objSet entry ("index") (.num (idx : Int))
      some entry
  | _ =>
      (match data_uri_from raw with
       | some d => some (.obj [(("index"), .num (idx : Int)), (("image_data_uri"), .str d)])
       | none => none)

/-- `_normalize_slide_entries` (event_mapping.py): the list of slide dicts
with a truthy `image_data_uri`. -/
def normalize_slide_entries (slides_result : Json) : List Json :=
  if !slides_result.isObj then []
  else
    let c0 := slides_result.get ("slides")
    let candidates :=
      if c0.isObj then c0.get ("slides")
      else if c0.isNull then
        (let maybe_nested := slides_result.get ("result")
         if maybe_nested.isObj then
           (let c1 := maybe_nested.get ("slides")
            if c1.isObj then c1.get ("slides") else c1)
         else c0)
      else c0
    match candidates with
    | .arr xs =>
        xs.enum.filterMap (fun p =>
          match slide_entry_of p.1 p.2 with
          | some entry =>
              if truthy (entry.get ("image_data_uri")) then some entry else none
          | none => none)
    | _ => []

/-- The per-slide lines of the slide-extraction branch of `process_event`
(image tag and caption for one normalized slide entry). -/
def slide_lines_of (slide : Json) : List String :=
  let uri := slide.get ("image_data_uri")
  if !truthy uri then []
  else
    let index := slide.get ("index")
    let label := pyStrip (jStrOf (pyOr (slide.get ("label")) (.str "")))
    let start := slide.get ("from")
    let stop := slide.get ("to")
    let time_range :=
      if start.isNum && stop.isNum then
        pyStr start ++ "s–" ++ pyStr stop ++ "s"
      else ""
    let caption_parts :=
      (if !index.isNull then ["Slide #" ++ pyStr index] else []) ++
      (if label ≠ "" then [label] else []) ++
      (if time_range ≠ "" then [time_range] else [])
    let caption := String.intercalate (" · ") caption_parts
    let img_md := image_md_from_data_uri uri ("Slide " ++ pyStr index)
    (match img_md with
     | some m => ["", m]
     | none => []) ++
    (if caption ≠ "" then ["", caption] else [])

/-- The main-response text emitted by the slide-extraction branch:
`"Detected N slides..."` followed by the image tags and captions. -/
def slide_detected_text (slides : List Json) : String :=
  String.intercalate ("\n")
    ((("Detected " ++ toString slides.length ++ " slides for this media.") :: []) ++
      (slides.map slide_lines_of).flatten)

/-- The data-URI search of the `translate_slide` branch of `process_event`:
first the structured payload, then the image-typed response content items. -/
def translate_data_uri (structured response : Json) : Option String :=
  let d0 := if truthy structured then data_uri_from structured else none
  match d0 with
  | some u => some u
  | none =>
      (match response with
       | .obj _ =>
           (match pyOr (response.get ("content")) (.arr []) with
            | .arr items =>
                items.findSome? (fun item =>
                  if item.isObj && (item.get ("type")).eqStr ("image") then
                    data_uri_from item
                  else none)
            | _ => none)
       | _ => none)

/-- The generic-tool fallback body of `process_event`: pretty-print the
inner text as JSON when it parses, else show it raw, else dump the whole
response. -/
def generic_body (response : Json) : String :=
  match parse_text_content response with
  | some inner =>
      (match inner with
       | .str s =>
           (match jsonLoads s with
            | some parsed => "```json\n" ++ pretty_json parsed ++ "\n```"
            | none => s)
       | _ => jStrOf inner)
  | none => "```json\n" ++ pretty_json response ++ "\n```"

/-- Gradio `ChatMessage` as used by the correlator: role, markdown body,
and a metadata dict carrying `title`/`status`/`id`. -/
structure ChatMessage where
  role : String
  content : String
  metadata : Option Json

/-- `ToolDisplayState` (event_mapping.py): per-turn state for displaying
tool usage.  `tools_by_key` and the tick/job maps are modelled as
insertion-ordered association lists, matching Python dicts. -/
structure ToolDisplayState where
  tools_by_key : List (String × ChatMessage)
  tool_order : List String
  job_roots : List (String × String)
  fake_progress_ticks : List (String × Nat)
  suppress_text : Bool

/-- `init_tool_display_state` (event_mapping.py). -/
def init_tool_display_state : ToolDisplayState :=
  { tools_by_key := [], tool_order := [], job_roots := [],
    fake_progress_ticks := [], suppress_text := false }

/-- `_first_part` (event_mapping.py).  A truthy non-list `parts` value
would be indexed by Python; the model totalizes it to the empty part. -/
def first_part (event : Json) : Json :=
  let content := pyOr (event.get ("content")) (.obj [])
  let parts := pyOr (content.get ("parts")) (.arr [])
  match parts with
  | .arr (p :: _) => pyOr p (.obj [])
  | _ => .obj []

/-- The tool name of a call/response dict: `d.get("name", "tool")`.  A
present non-string name (which would crash later formatting in Python) is
totalized through `str`. -/
def fr_tool_name (d : Json) : String :=
  match d.getOr ("name") (.str ("tool")) with
  | .str s => s
  | .null => "tool"
  | v => pyStr v

/-- `d.get("id") or tool_name`: the canonical id of a call/response. -/
def call_id_of (d : Json) (tool_name : String) : String :=
  let i := d.get ("id")
  if truthy i then jStrOf i else tool_name

/-- The canonical tool key of a function response (event_mapping.py lines
493-499): the registered job root when the response carries an
already-seen truthy `job_id`, else its own call id. -/
def fr_canonical_key (roots : List (String × String)) (call_id : String)
    (job_id : Json) : String :=
  if truthy job_id then
    match lookupA roots (jsonKey job_id) with
    | none => call_id
    | some root => root
  else call_id

/-- The job-root registration of a function response: a truthy `job_id`
not yet in the map is bound to this response's call id; an existing root
is never changed. -/
def fr_new_roots (roots : List (String × String)) (call_id : String)
    (job_id : Json) : List (String × String) :=
  if truthy job_id then
    match lookupA roots (jsonKey job_id) with
    | none => insertA roots (jsonKey job_id) call_id
    | some _ => roots
  else roots

/-- The per-tool body/fragment/suppression outcome of the function-response
branch of `process_event` (event_mapping.py lines 524-616): the message
body to store, the text fragment to return (only the visual-artifact tools
return one) and the resulting `suppress_text` flag. -/
def fr_render (tool_name : String) (response structured : Json)
    (ticks_val : Option Nat) (suppress : Bool) : String × Option Json × Bool :=
  if tool_name = "get_factual_memory" then
    (format_get_factual_memory_body response, none, suppress)
  else if tool_name = "start_media_retrieval" ∨
          tool_name = "get_media_retrieval_status" then
    (format_media_retrieval_body structured, none, suppress)
  else if tool_name = "start_media_analysis" ∨
          tool_name = "get_media_analysis_result" then
    (format_media_analysis_body structured ticks_val, none, suppress)
  else if tool_name = "start_slide_extraction" ∨
          tool_name = "get_extracted_slides" then
    (let slides := normalize_slide_entries (pyOr structured response)
     if !slides.isEmpty then
       ("Extracted " ++ toString slides.length ++ " slides for this media.",
        some (.str (slide_detected_text slides)), true)
     else ("_No slides available for this media._", none, suppress))
  else if tool_name = "translate_slide" then
    (match translate_data_uri structured response with
     | some uri =>
         ("Translated slide image ready.",
          some (.str ((image_md_from_data_uri (.str uri) ("Translated slide")).getD
            ("_Translated slide image available._"))),
          true)
     | none =>
         ("_Slide translation completed, but the image payload could not be decoded._",
          none, suppress))
  else (generic_body response, none, suppress)

/-- The briefing-refinement branch of `process_event` (event_mapping.py
lines 398-433): synthesize/update the fixed-key spinner message; status is
`done` on `finishReason == "STOP"` or a non-partial event; never returns a
text fragment. -/
def process_refinement (event : Json) (state : ToolDisplayState) :
    Option Json × ToolDisplayState :=
  let key := "__briefing_refinement__"
  let title := "👩🏻‍🏫 Refining and expanding inquiry"
  let existing := lookupA state.tools_by_key key
  let msg : ChatMessage :=
    match existing with
    | none =>
        { role := "assistant",
          content := "_Refining and expanding your inquiry..._",
          metadata := some (.obj [("title", Json.str title),
                                  ("status", Json.str ("pending")),
                                  ("id", Json.str key)]) }
    | some m =>
        { m with metadata := some (objSet ((m.metadata).getD (.obj [])) ("title")
            (.str title)) }
  let finish_reason := event.get ("finishReason")
  let partialFlag := event.get ("partial")
  let status :=
    if finish_reason.eqStr ("STOP") || partialFlag.isNull || partialFlag.isFalse
    then "done" else "pending"
  let msg :=
    { msg with metadata := some (objSet ((msg.metadata).getD (.obj [])) ("status")
        (.str status)) }
  (none,
   { state with
      tools_by_key := insertA state.tools_by_key key msg,
      tool_order :=
        if existing.isSome then state.tool_order else state.tool_order ++ [key] })

/-- The function-call branch of `process_event` (event_mapping.py lines
440-476). -/
def process_function_call (fc : Json) (state : ToolDisplayState) :
    Option Json × ToolDisplayState :=
  let tool_name := fr_tool_name fc
  let args := pyOr (fc.getOr ("args") (.obj [])) (.obj [])
  let call_id := call_id_of fc tool_name
  let title := tool_title tool_name
  let body :=
    if tool_name = "start_media_analysis" then format_media_analysis_args args
    else format_args_markdown args
  match lookupA state.tools_by_key call_id with
  | none =>
      let msg : ChatMessage :=
        { role := "assistant", content := body,
          metadata := some (.obj [("title", Json.str title),
                                  ("status", Json.str ("pending")),
                                  ("id", Json.str call_id)]) }
      (none,
       { state with
          tools_by_key := insertA state.tools_by_key call_id msg,
          tool_order := state.tool_order ++ [call_id] })
  | some m =>
      let msg : ChatMessage :=
        { m with
           content := body,
           metadata :=
             match m.metadata with
             | none => none
             | some md =>
                 some (objSet (objSet md ("title") (.str title)) ("status")
                   (.str ("pending"))) }
      (none, { state with tools_by_key := insertA state.tools_by_key call_id msg })

/-- `fr.get("response", (dict)) or (dict)` of a function response. -/
def fr_response (fr : Json) : Json := pyOr (fr.getOr ("response") (.obj [])) (.obj [])

/-- `_extract_structured(response) or (dict)` of a function response. -/
def fr_structured (fr : Json) : Json :=
  pyOr (extract_structured (fr_response fr)) (.obj [])

/-- The `job_id` field of the structured content of a function response. -/
def fr_job_id (fr : Json) : Json := (fr_structured fr).get ("job_id")

/-- The `status` field of the structured content of a function response. -/
def fr_status_value (fr : Json) : Json := (fr_structured fr).get ("status")

/-- The call id of a function response (`fr.get("id") or tool_name`). -/
def fr_call_id (fr : Json) : String := call_id_of fr (fr_tool_name fr)

/-- The canonical key a function response resolves to in a given state. -/
def fr_key (state : ToolDisplayState) (fr : Json) : String :=
  fr_canonical_key state.job_roots (fr_call_id fr) (fr_job_id fr)

/-- The `status` metadata written by the function-response branch
(event_mapping.py lines 519-522): `done` when the structured status is
falsy or equals `done`, else `pending`. -/
def fr_status_str (fr : Json) : String :=
  if truthy (fr_status_value fr) then
    (if (fr_status_value fr).eqStr ("done") then "done" else "pending")
  else "done"

/-- The tick map produced by one function-response step (event_mapping.py
lines 530-533): the increment happens only for the two media-analysis
tools while the status is truthy and not `done`. -/
def fr_ticks (state : ToolDisplayState) (fr : Json) : List (String × Nat) :=
  if (fr_tool_name fr == "start_media_analysis" ||
      fr_tool_name fr == "get_media_analysis_result") &&
     truthy (fr_status_value fr) && !(fr_status_value fr).eqStr ("done") then
    insertA state.fake_progress_ticks (fr_key state fr)
      (((lookupA state.fake_progress_ticks (fr_key state fr)).getD 0) + 1)
  else state.fake_progress_ticks

/-- The record stored at the canonical key by the function-response branch:
the existing message (or a fresh one if the call was missed) with its
title/status metadata updated and the rendered body as content. -/
def fr_new_record (fr : Json) (state : ToolDisplayState) : ChatMessage :=
  let title := tool_title (fr_tool_name fr)
  let canonical_key := fr_key state fr
  let msg0 : ChatMessage :=
    match lookupA state.tools_by_key canonical_key with
    | some m => m
    | none =>
        { role := "assistant", content := "",
          metadata := some (.obj [("title", Json.str title),
                                  ("id", Json.str canonical_key)]) }
  let md := objSet (objSet ((msg0.metadata).getD (.obj [])) ("title")
    (.str title)) ("status") (.str (fr_status_str fr))
  { msg0 with
     content := (fr_render (fr_tool_name fr) (fr_response fr) (fr_structured fr)
       (lookupA (fr_ticks state fr) canonical_key) state.suppress_text).1,
     metadata := some md }

/-- The function-response branch of `process_event` (event_mapping.py lines
479-616). -/
def process_function_response (fr : Json) (state : ToolDisplayState) :
    Option Json × ToolDisplayState :=
  let canonical_key := fr_key state fr
  let existing := lookupA state.tools_by_key canonical_key
  let ticks1 := fr_ticks state fr
  let rendered := fr_render (fr_tool_name fr) (fr_response fr) (fr_structured fr)
    (lookupA ticks1 canonical_key) state.suppress_text
  (rendered.2.1,
   { tools_by_key := insertA state.tools_by_key canonical_key
       (fr_new_record fr state),
     tool_order := state.tool_order ++ (if existing.isSome then [] else [canonical_key]),
     job_roots := fr_new_roots state.job_roots (fr_call_id fr) (fr_job_id fr),
     fake_progress_ticks := ticks1,
     suppress_text := rendered.2.2 })

/-- `process_event` (event_mapping.py): update the per-turn tool display
state from one raw event; returns the user-visible text chunk, if any. -/
def process_event (event : Json) (state : ToolDisplayState) :
    Option Json × ToolDisplayState :=
  if (event.get ("author")).eqStr ("briefing_refinement_agent") then
    process_refinement event state
  else if !truthy (first_part event) then (none, state)
  else if truthy (pyOr ((first_part event).get ("function_call"))
                   ((first_part event).get ("functionCall"))) then
    process_function_call
      (pyOr ((first_part event).get ("function_call"))
        ((first_part event).get ("functionCall"))) state
  else if truthy (pyOr ((first_part event).get ("function_response"))
                   ((first_part event).get ("functionResponse"))) then
    process_function_response
      (pyOr ((first_part event).get ("function_response"))
        ((first_part event).get ("functionResponse"))) state
  else if (first_part event).hasKey ("text") then
    (if state.suppress_text then none else some ((first_part event).get ("text")),
     state)
  else (none, state)

/-- `get_ordered_tool_messages` (event_mapping.py): tool messages in
first-seen order. -/
def get_ordered_tool_messages (state : ToolDisplayState) : List ChatMessage :=
  state.tool_order.filterMap (fun k => lookupA state.tools_by_key k)

/-- Fold `process_event` over an event sequence (one turn), keeping only
the state. -/
def process_events (events : List Json) (state : ToolDisplayState) :
    ToolDisplayState :=
  events.foldl (fun s e => (process_event e s).2) state

/-- `DUMMY_SIGNATURE` (assistant_loop_exit_agent.py). -/
def DUMMY_SIGNATURE : String := "context_engineering_is_the_way_to_go"

/-- `DUMMY_SIGNATURE.encode("utf-8")` — the signature is ASCII, so the
UTF-8 bytes are the code points. -/
def DUMMY_SIGNATURE_BYTES : List Nat := DUMMY_SIGNATURE.toList.map Char.toNat

/-- A `genai` function call as seen by the loop-exit agent: only the
`thought_signature` attribute is inspected or written. -/
structure LFunctionCall where
  thought_signature : Option String

/-- A content part of an ADK event: optional text, optional function call,
and the part-level `thought_signature` bytes. -/
structure LPart where
  text : Option String
  function_call : Option LFunctionCall
  thought_signature : Option (List Nat)

/-- An ADK event as seen by the loop-exit agent.  `final` models the
external `Event.is_final_response()` collaborator (the `isFinal` field of
the spec data model); `escalate` models `actions.escalate`.  `parts`
collapses `event.content.parts`, with `none` covering a missing content
object. -/
structure LEvent where
  id : String
  author : String
  final : Bool
  parts : Option (List LPart)
  escalate : Bool

/-- An ADK session: the append-only event log and the key/value state
store (which may be absent). -/
structure LSession where
  events : List LEvent
  state : Option (List (String × Json))

/-- The invocation context handed to the agents. -/
structure LCtx where
  session : Option LSession
  invocation_id : String

/-- Python truthiness of an optional string attribute
(`getattr(x, "thought_signature", None)`). -/
def truthyOptStr : Option String → Bool
  | none => false
  | some s => s ≠ ""

/-- Python truthiness of an optional bytes attribute. -/
def truthyOptBytes : Option (List Nat) → Bool
  | none => false
  | some bs => !bs.isEmpty

/-- `AssistantLoopExitAgent._latest_event_from_assistant`: the most recent
session event authored by the watched agent. -/
def latest_event_from_assistant (watched : String) (ctx : LCtx) : Option LEvent :=
  match ctx.session with
  | none => none
  | some s =>
      if s.events.isEmpty then none
      else s.events.reverse.find? (fun e => e.author == watched)

/-- `AssistantLoopExitAgent._has_nonempty_response`: the designated state
key holds a truthy value (strings are stripped first). -/
def has_nonempty_response (ctx : LCtx) (state_key : String) : Bool :=
  match ctx.session with
  | none => false
  | some s =>
      match s.state with
      | none => false
      | some st =>
          match lookupA st state_key with
          | none => false
          | some .null => false
          | some (.str v) => pyStrip v ≠ ""
          | some v => truthy v

/-- `AssistantLoopExitAgent._extract_text`: concatenation of the truthy
text parts of an event. -/
def extract_text (e : LEvent) : String :=
  match e.parts with
  | none => ""
  | some ps =>
      String.join (ps.filterMap (fun p =>
        match p.text with
        | some t => if t ≠ "" then some t else none
        | none => none))

/-- The reverse scan of `_has_text_response_since_last_user`: stop at the
first user-authored event, succeed on a watched-agent event with
non-blank text. -/
def has_text_since_rev (watched : String) : List LEvent → Bool
  | [] => false
  | e :: rest =>
      if e.author == "user" then false
      else if e.author == watched && pyStrip (extract_text e) ≠ "" then true
      else has_text_since_rev watched rest

/-- `AssistantLoopExitAgent._has_text_response_since_last_user`. -/
def has_text_response_since_last_user (watched : String) (ctx : LCtx) : Bool :=
  match ctx.session with
  | none => false
  | some s => if s.events.isEmpty then false else has_text_since_rev watched s.events.reverse

/-- The per-part body of `_patch_missing_signatures`: a part carrying a
function call whose call- or part-level signature is missing gets both
set to the fixed placeholder; the returned count is 1 when patched. -/
def patch_part (p : LPart) : LPart × Nat :=
  match p.function_call with
  | none => (p, 0)
  | some fc =>
      if !truthyOptStr fc.thought_signature || !truthyOptBytes p.thought_signature then
        ({ p with function_call := some { fc with thought_signature := some DUMMY_SIGNATURE },
                  thought_signature := some DUMMY_SIGNATURE_BYTES }, 1)
      else (p, 0)

/-- `_patch_missing_signatures` over one event: only watched-agent events
with a truthy parts list are touched. -/
def patch_event (watched : String) (e : LEvent) : LEvent × Nat :=
  if e.author ≠ watched then (e, 0)
  else
    match e.parts with
    | none => (e, 0)
    | some [] => (e, 0)
    | some ps =>
        let patched := ps.map patch_part
        ({ e with parts := some (patched.map Prod.fst) },
         (patched.map Prod.snd).sum)

/-- `_patch_missing_signatures` over the session event log. -/
def patch_events (watched : String) (evs : List LEvent) : List LEvent × Nat :=
  let patched := evs.map (patch_event watched)
  (patched.map Prod.fst, (patched.map Prod.snd).sum)

/-- `AssistantLoopExitAgent._patch_missing_signatures` on the context:
returns the patched context and the number of patched entries. -/
def patch_missing_signatures (watched : String) (ctx : LCtx) : LCtx × Nat :=
  match ctx.session with
  | none => (ctx, 0)
  | some s =>
      if s.events.isEmpty then (ctx, 0)
      else
        let r := patch_events watched s.events
        ({ ctx with session := some { s with events := r.1 } }, r.2)

/-- The loop-exit agent configuration: the watched agent name and the
optional response state key. -/
structure LoopExitCfg where
  watched_agent_name : String
  response_state_key : Option String

/-- `bool(self.response_state_key and self._has_nonempty_response(...))`:
false for an unset (or falsy empty) key. -/
def loop_has_state_response (cfg : LoopExitCfg) (ctx : LCtx) : Bool :=
  match cfg.response_state_key with
  | none => false
  | some k => if k = "" then false else has_nonempty_response ctx k

/-- The "has output" test of the loop-exit agent (lines 58-65):
a truthy state value, or non-blank latest text, or non-blank watched text
since the last user event. -/
def loop_has_output (cfg : LoopExitCfg) (ctx : LCtx) (latest : LEvent) : Bool :=
  loop_has_state_response cfg ctx ||
    (pyStrip (extract_text latest) ≠ "" ||
      has_text_response_since_last_user cfg.watched_agent_name ctx)

/-- The escalation event yielded on the success path: authored by the
agent itself, carrying `EventActions(escalate=True)` and no content. -/
def escalate_event (ctx : LCtx) : LEvent :=
  { id := ctx.invocation_id, author := "assistant_loop_exit_agent",
    final := true, parts := none, escalate := true }

/-- `AssistantLoopExitAgent._run_async_impl`: the yielded events and the
resulting context (identical except on the stall-recovery patch path). -/
def run_loop_exit (cfg : LoopExitCfg) (ctx : LCtx) : List LEvent × LCtx :=
  match latest_event_from_assistant cfg.watched_agent_name ctx with
  | none => ([], ctx)
  | some latest =>
      if !latest.final then ([], ctx)
      else if !loop_has_output cfg ctx latest then
        ([], (patch_missing_signatures cfg.watched_agent_name ctx).1)
      else ([escalate_event ctx], ctx)

/-- The context handed to `ConditionalPrepAgent`: the session state store
and the latest user content parts. -/
structure PrepCtx where
  session_state : Option (List (String × Json))
  user_content : Option (List LPart)

/-- The first truthy text among the user content parts
(conditional_prep_agent.py lines 57-64). -/
def prep_user_text (ctx : PrepCtx) : Option String :=
  match ctx.user_content with
  | none => none
  | some parts =>
      if parts.isEmpty then none
      else parts.findSome? (fun p =>
        match p.text with
        | some t => if t ≠ "" then some t else none
        | none => none)

/-- `ConditionalPrepAgent._run_async_impl`, with the two sub-agents as
opaque collaborators contributing the event lists they would emit: the
briefing agent runs (its events are forwarded) iff the state store lacks
`briefing_refined`; the message agent runs iff there is truthy user text
and a state store, after staging `latest_user_message`. -/
def run_conditional_prep {α : Type} (briefing_events message_events : List α)
    (ctx : PrepCtx) : List α × PrepCtx :=
  let state_dict := (ctx.session_state).getD []
  let has_refined_briefing := (lookupA state_dict ("briefing_refined")).isSome
  let out1 := if !has_refined_briefing then briefing_events else []
  match prep_user_text ctx, ctx.session_state with
  | some t, some st =>
      (out1 ++ message_events,
       { ctx with session_state := some (insertA st ("latest_user_message") (.str t)) })
  | _, _ => (out1, ctx)

/-- Looking up the key just inserted yields the new value. -/
@[simp] theorem lookupA_insertA_self {α : Type} (l : List (String × α)) (k : String)
    (v : α) : lookupA (insertA l k v) k = some v := by
  induction l with
  | nil => simp [insertA, lookupA]
  | cons hd tl ih =>
      by_cases h : hd.1 = k
      · simp [insertA, lookupA, h]
      · simp [insertA, lookupA, h, ih]

/-- Inserting one key leaves the lookups of all other keys unchanged. -/
theorem lookupA_insertA_ne {α : Type} (l : List (String × α)) (k k' : String)
    (v : α) (h : k' ≠ k) : lookupA (insertA l k v) k' = lookupA l k' := by
  induction l with
  | nil => simp [insertA, lookupA, Ne.symm h]
  | cons hd tl ih =>
      by_cases h0 : hd.1 = k
      · simp [insertA, lookupA, h0, Ne.symm h]
      · simp only [insertA, lookupA, h0, if_false]
        by_cases h1 : hd.1 = k'
        · simp [h1]
        · simp [h1, ih]

/-- The key just inserted is present. -/
theorem lookupA_insertA_isSome {α : Type} (l : List (String × α)) (k : String)
    (v : α) : (lookupA (insertA l k v) k).isSome = true := by simp

/-- Reading the key just written into a metadata dict. -/
@[simp] theorem get_objSet_self (j : Json) (k : String) (v : Json) :
    (objSet j k v).get k = v := by
  cases j <;> simp [objSet, Json.get, lookupA]

/-- Reading another key of a written metadata dict. -/
theorem get_objSet_ne (j : Json) (k k' : String) (v : Json) (h : k' ≠ k) :
    (objSet j k v).get k' = j.get k' := by
  cases j <;>
    simp [objSet, Json.get, lookupA, lookupA_insertA_ne _ _ _ _ h, Ne.symm h]

/-- Event constructor: an event of the given author whose content carries
the given parts. -/
def mkPartEvent (author : String) (parts : List Json) : Json :=
  Json.obj [("author", Json.str author),
            ("content", Json.obj [("parts", Json.arr parts)])]

/-- Event constructor: a single function-call part. -/
def fcEvent (author : String) (fc : Json) : Json :=
  mkPartEvent author [Json.obj [("function_call", fc)]]

/-- Event constructor: a single function-response part. -/
def frEvent (author : String) (fr : Json) : Json :=
  mkPartEvent author [Json.obj [("function_response", fr)]]

/-- Event constructor: a single text part. -/
def textEvent (author : String) (t : Json) : Json :=
  mkPartEvent author [Json.obj [("text", t)]]

/-- Statement-side observation: the `status` metadata of the record stored
under a key. -/
def record_status (s : ToolDisplayState) (k : String) : Json :=
  match lookupA s.tools_by_key k with
  | some m => ((m.metadata).getD (.obj [])).get ("status")
  | none => .null

/-- The refinement branch never touches the job-root map, the tick map or
the suppression flag. -/
theorem process_refinement_fields (e : Json) (s : ToolDisplayState) :
    ((process_refinement e s).2.job_roots = s.job_roots ∧
     (process_refinement e s).2.fake_progress_ticks = s.fake_progress_ticks ∧
     (process_refinement e s).2.suppress_text = s.suppress_text) :=
  ⟨rfl, rfl, rfl⟩

/-- The function-call branch never touches the job-root map, the tick map
or the suppression flag. -/
theorem process_function_call_fields (fc : Json) (s : ToolDisplayState) :
    ((process_function_call fc s).2.job_roots = s.job_roots ∧
     (process_function_call fc s).2.fake_progress_ticks = s.fake_progress_ticks ∧
     (process_function_call fc s).2.suppress_text = s.suppress_text) := by
  rcases h : lookupA s.tools_by_key (call_id_of fc (fr_tool_name fc)) with _ | m <;>
    simp [process_function_call, h]

/-- The function-response branch updates the job roots via `fr_new_roots`. -/
theorem process_function_response_job_roots (fr : Json) (s : ToolDisplayState) :
    (process_function_response fr s).2.job_roots =
      fr_new_roots s.job_roots (fr_call_id fr) (fr_job_id fr) := rfl

/-- An established job root survives a root registration step. -/
theorem fr_new_roots_keeps (roots : List (String × String)) (cid : String)
    (job_id : Json) (j k : String) (h : lookupA roots j = some k) :
    lookupA (fr_new_roots roots cid job_id) j = some k := by
  unfold fr_new_roots
  split
  · rcases h0 : lookupA roots (jsonKey job_id) with _ | r
    · simp only [h0]
      have hne : j ≠ jsonKey job_id := by
        intro he
        rw [he, h0] at h
        exact Option.noConfusion h
      rw [lookupA_insertA_ne _ _ _ _ hne]
      exact h
    · simp only [h0]
      exact h
  · exact h

/-- A non-empty dict is truthy. -/
@[simp] theorem truthy_obj_cons (kv : String × Json) (kvs : List (String × Json)) :
    truthy (Json.obj (kv :: kvs)) = true := rfl

/-- `None` is falsy. -/
@[simp] theorem truthy_null : truthy Json.null = false := rfl

/-- A non-empty list is truthy. -/
@[simp] theorem truthy_arr_cons (x : Json) (xs : List Json) :
    truthy (Json.arr (x :: xs)) = true := rfl

/-- The empty list is falsy. -/
@[simp] theorem truthy_arr_nil : truthy (Json.arr []) = false := rfl

/-- The empty dict is falsy. -/
@[simp] theorem truthy_obj_nil : truthy (Json.obj []) = false := rfl

/-- Dispatch: an event authored by the refinement agent always takes the
refinement branch. -/
theorem process_event_refinement (e : Json) (s : ToolDisplayState)
    (h : (e.get ("author")).eqStr ("briefing_refinement_agent") = true) :
    process_event e s = process_refinement e s := by
  unfold process_event
  rw [if_pos h]

/-- Dispatch: a single-function-response event of any other author takes
the function-response branch. -/
theorem process_event_fr (author : String) (fr : Json) (s : ToolDisplayState)
    (h : author ≠ "briefing_refinement_agent") (hfr : truthy fr = true) :
    process_event (frEvent author fr) s = process_function_response fr s := by
  have hb : (author == "briefing_refinement_agent") = false :=
    beq_eq_false_iff_ne.mpr h
  simp [process_event, frEvent, mkPartEvent, first_part, Json.get, Json.hasKey,
    lookupA, pyOr, Json.eqStr, hb, hfr]

/-- Dispatch: a single-function-call event of any other author takes the
function-call branch. -/
theorem process_event_fc (author : String) (fc : Json) (s : ToolDisplayState)
    (h : author ≠ "briefing_refinement_agent") (hfc : truthy fc = true) :
    process_event (fcEvent author fc) s = process_function_call fc s := by
  have hb : (author == "briefing_refinement_agent") = false :=
    beq_eq_false_iff_ne.mpr h
  simp [process_event, fcEvent, mkPartEvent, first_part, Json.get, Json.hasKey,
    lookupA, pyOr, Json.eqStr, hb, hfc]

/-- Dispatch: a single-text-part event of any other author returns the text
value iff suppression is off, and never changes the state. -/
theorem process_event_text (author : String) (t : Json) (s : ToolDisplayState)
    (h : author ≠ "briefing_refinement_agent") :
    process_event (textEvent author t) s =
      (if s.suppress_text then none else some t, s) := by
  have hb : (author == "briefing_refinement_agent") = false :=
    beq_eq_false_iff_ne.mpr h
  simp [process_event, textEvent, mkPartEvent, first_part, Json.get, Json.hasKey,
    lookupA, pyOr, Json.eqStr, hb]

/-- Dispatch: a non-refinement event with an empty parts list is a no-op. -/
theorem process_event_no_parts (author : String) (s : ToolDisplayState)
    (h : author ≠ "briefing_refinement_agent") :
    process_event (mkPartEvent author []) s = (none, s) := by
  have hb : (author == "briefing_refinement_agent") = false :=
    beq_eq_false_iff_ne.mpr h
  simp [process_event, mkPartEvent, first_part, Json.get, Json.hasKey,
    lookupA, pyOr, Json.eqStr, hb]

/-- Every path of `process_event` is one of: the refinement branch, the
function-call branch, the function-response branch, or a state-preserving
step (missing/empty/text-only/unclassifiable first part). -/
theorem process_event_shape (e : Json) (s : ToolDisplayState) :
    process_event e s = process_refinement e s ∨
    process_event e s =
      process_function_call
        (pyOr ((first_part e).get ("function_call"))
          ((first_part e).get ("functionCall"))) s ∨
    process_event e s =
      process_function_response
        (pyOr ((first_part e).get ("function_response"))
          ((first_part e).get ("functionResponse"))) s ∨
    (process_event e s).2 = s := by
  by_cases ha : (e.get ("author")).eqStr ("briefing_refinement_agent") = true
  · left
    unfold process_event
    rw [if_pos ha]
  · by_cases hp : (!truthy (first_part e)) = true
    · right; right; right
      unfold process_event
      rw [if_neg ha, if_pos hp]
    · by_cases hfc : truthy (pyOr ((first_part e).get ("function_call"))
          ((first_part e).get ("functionCall"))) = true
      · right; left
        unfold process_event
        rw [if_neg ha, if_neg hp, if_pos hfc]
      · by_cases hfr : truthy (pyOr ((first_part e).get ("function_response"))
            ((first_part e).get ("functionResponse"))) = true
        · right; right; left
          unfold process_event
          rw [if_neg ha, if_neg hp, if_neg hfc, if_pos hfr]
        · right; right; right
          unfold process_event
          rw [if_neg ha, if_neg hp, if_neg hfc, if_neg hfr]
          by_cases ht : (first_part e).hasKey ("text") = true
          · rw [if_pos ht]
          · rw [if_neg ht]

/-- A function response with an already-registered job root leaves the
root map unchanged. -/
theorem fr_new_roots_existing (roots : List (String × String)) (cid : String)
    (job_id : Json) (k : String) (hj : truthy job_id = true)
    (h : lookupA roots (jsonKey job_id) = some k) :
    fr_new_roots roots cid job_id = roots := by
  simp [fr_new_roots, hj, h]

/-- A function response with a fresh truthy job id registers its call id
as the root. -/
theorem fr_new_roots_fresh (roots : List (String × String)) (cid : String)
    (job_id : Json) (hj : truthy job_id = true)
    (h : lookupA roots (jsonKey job_id) = none) :
    fr_new_roots roots cid job_id = insertA roots (jsonKey job_id) cid := by
  simp [fr_new_roots, hj, h]

/-- A function response whose job id has a registered root resolves to
that root key. -/
theorem fr_key_of_root (s : ToolDisplayState) (fr : Json) (k : String)
    (hj : truthy (fr_job_id fr) = true)
    (h : lookupA s.job_roots (jsonKey (fr_job_id fr)) = some k) :
    fr_key s fr = k := by
  simp [fr_key, fr_canonical_key, hj, h]

/-- The function-response branch rewrites only the record at the canonical
key, keeps every other record, guarantees a record at the canonical key,
and appends the canonical key to the order exactly when it is new. -/
theorem process_function_response_tools (fr : Json) (s : ToolDisplayState) :
    ((∀ k', k' ≠ fr_key s fr →
        lookupA (process_function_response fr s).2.tools_by_key k' =
          lookupA s.tools_by_key k') ∧
     (lookupA (process_function_response fr s).2.tools_by_key (fr_key s fr)).isSome
        = true ∧
     (process_function_response fr s).2.tool_order =
        s.tool_order ++
          (if (lookupA s.tools_by_key (fr_key s fr)).isSome then []
           else [fr_key s fr])) := by
  refine ⟨fun k' hk => ?_, ?_, rfl⟩
  · exact lookupA_insertA_ne _ _ _ _ hk
  · exact lookupA_insertA_isSome s.tools_by_key (fr_key s fr) _

/-- Scenario A event 1: `FunctionCall(id=c1, name="fetch")`. -/
def scenarioA_e1 : Json :=
  fcEvent ("aileen3_agent")
    (Json.obj [("id", Json.str ("c1")), ("name", Json.str ("fetch")),
               ("args", Json.obj [])])

/-- Scenario A event 2: response for `c1` with status `pending`. -/
def scenarioA_e2 : Json :=
  frEvent ("aileen3_agent")
    (Json.obj [("id", Json.str ("c1")), ("name", Json.str ("fetch")),
               ("response", Json.obj [("structuredContent",
                 Json.obj [("status", Json.str ("pending"))])])])

/-- Scenario A event 3: response for `c1` now carrying `job_id=j1`. -/
def scenarioA_e3 : Json :=
  frEvent ("aileen3_agent")
    (Json.obj [("id", Json.str ("c1")), ("name", Json.str ("fetch")),
               ("response", Json.obj [("structuredContent",
                 Json.obj [("job_id", Json.str ("j1")),
                           ("status", Json.str ("pending"))])])])

/-- Scenario A event 4: response keyed only by `job_id=j1`, status `done`. -/
def scenarioA_e4 : Json :=
  frEvent ("aileen3_agent")
    (Json.obj [("response", Json.obj [("structuredContent",
       Json.obj [("job_id", Json.str ("j1")),
                 ("status", Json.str ("done"))])])])

/-- The turn state after processing the Scenario A sequence. -/
def scenarioA_final : ToolDisplayState :=
  process_events [scenarioA_e1, scenarioA_e2, scenarioA_e3, scenarioA_e4]
    init_tool_display_state

/-- C1: job-root collapsing.  (i) An established `job_id → canonical key`
binding survives processing any further event.  (ii) The first function
response carrying a fresh truthy `job_id` fixes the root to its own call
id (its id, falling back to its name).  (iii) Any later function response
carrying the same `job_id` resolves to that root record even when its own
id differs: the root map is unchanged, only the root record is rewritten,
a record exists at the root key afterwards, and no new record/order entry
is created when the root record already exists.  (iv) Scenario A ends with
exactly one record, keyed `c1`, with status `done`. -/
theorem C1_job_root_collapsing :
    (∀ (e : Json) (s : ToolDisplayState) (j k : String),
        lookupA s.job_roots j = some k →
        lookupA (process_event e s).2.job_roots j = some k) ∧
    (∀ (author : String) (fr : Json) (s : ToolDisplayState),
        author ≠ "briefing_refinement_agent" → truthy fr = true →
        truthy (fr_job_id fr) = true →
        lookupA s.job_roots (jsonKey (fr_job_id fr)) = none →
        (process_event (frEvent author fr) s).2.job_roots =
          insertA s.job_roots (jsonKey (fr_job_id fr)) (fr_call_id fr)) ∧
    (∀ (author : String) (fr : Json) (s : ToolDisplayState) (k : String),
        author ≠ "briefing_refinement_agent" → truthy fr = true →
        truthy (fr_job_id fr) = true →
        lookupA s.job_roots (jsonKey (fr_job_id fr)) = some k →
        ((process_event (frEvent author fr) s).2.job_roots = s.job_roots ∧
         (∀ k', k' ≠ k →
            lookupA (process_event (frEvent author fr) s).2.tools_by_key k' =
              lookupA s.tools_by_key k') ∧
         (lookupA (process_event (frEvent author fr) s).2.tools_by_key k).isSome
            = true ∧
         (process_event (frEvent author fr) s).2.tool_order =
           s.tool_order ++ (if (lookupA s.tools_by_key k).isSome then [] else [k]))) ∧
    (scenarioA_final.tools_by_key.map Prod.fst = ["c1"] ∧
     scenarioA_final.tool_order = ["c1"] ∧
     record_status scenarioA_final ("c1") = Json.str ("done")) := by
  refine ⟨?_, ?_, ?_, ?_, ?_, ?_⟩
  · intro e s j k h
    rcases process_event_shape e s with hs | hs | hs | hs
    · rw [hs, (process_refinement_fields e s).1]; exact h
    · rw [hs, (process_function_call_fields _ _).1]; exact h
    · rw [hs, process_function_response_job_roots]
      exact fr_new_roots_keeps _ _ _ _ _ h
    · rw [hs]; exact h
  · intro author fr s ha hfr hj hnone
    rw [process_event_fr author fr s ha hfr, process_function_response_job_roots]
    exact fr_new_roots_fresh _ _ _ hj hnone
  · intro author fr s k ha hfr hj hroot
    rw [process_event_fr author fr s ha hfr]
    have hkey : fr_key s fr = k := fr_key_of_root s fr k hj hroot
    refine ⟨?_, ?_, ?_, ?_⟩
    · rw [process_function_response_job_roots]
      exact fr_new_roots_existing _ _ _ _ hj hroot
    · intro k' hk
      exact (process_function_response_tools fr s).1 k' (by rw [hkey]; exact hk)
    · have h2 := (process_function_response_tools fr s).2.1
      rw [hkey] at h2; exact h2
    · have h3 := (process_function_response_tools fr s).2.2
      rw [hkey] at h3; exact h3
  · rfl
  · rfl
  · rfl

/-- Concrete instance of C1 (iii): a later response with a different id
but the registered `job_id` leaves other records untouched. -/
theorem C1_job_root_collapsing_witness :
    lookupA (process_event (frEvent ("aileen3_agent")
        (Json.obj [("id", Json.str ("c9")), ("name", Json.str ("fetch")),
          ("response", Json.obj [("structuredContent",
            Json.obj [("job_id", Json.str ("j1")),
                      ("status", Json.str ("done"))])])]))
        { tools_by_key := [("c1",
            { role := "assistant", content := "",
              metadata := some (Json.obj [("id", Json.str ("c1"))]) })],
          tool_order := ["c1"], job_roots := [("j1", "c1")],
          fake_progress_ticks := [], suppress_text := false }).2.tools_by_key
        ("other") =
      lookupA [("c1",
          ({ role := "assistant", content := "",
             metadata := some (Json.obj [("id", Json.str ("c1"))]) } :
            ChatMessage))] ("other") :=
  (C1_job_root_collapsing.2.2.1 ("aileen3_agent")
      (Json.obj [("id", Json.str ("c9")), ("name", Json.str ("fetch")),
        ("response", Json.obj [("structuredContent",
          Json.obj [("job_id", Json.str ("j1")),
                    ("status", Json.str ("done"))])])])
      { tools_by_key := [("c1",
          { role := "assistant", content := "",
            metadata := some (Json.obj [("id", Json.str ("c1"))]) })],
        tool_order := ["c1"], job_roots := [("j1", "c1")],
        fake_progress_ticks := [], suppress_text := false }
      ("c1") (by decide) (by rfl) (by rfl) (by rfl)).2.1 ("other") (by decide)

/-- Presence of a key survives inserting any (other or same) key. -/
theorem lookupA_insertA_isSome_mono {α : Type} (l : List (String × α))
    (k : String) (v : α) (k' : String) (h : (lookupA l k').isSome = true) :
    (lookupA (insertA l k v) k').isSome = true := by
  by_cases he : k' = k
  · subst he; simp
  · rw [lookupA_insertA_ne _ _ _ _ he]; exact h

/-- The refinement branch only ever appends (at most) its fixed key to the
order list. -/
theorem process_refinement_order (e : Json) (s : ToolDisplayState) :
    ∃ t, (process_refinement e s).2.tool_order = s.tool_order ++ t := by
  rcases h : lookupA s.tools_by_key ("__briefing_refinement__") with _ | m
  · exact ⟨["__briefing_refinement__"], by simp [process_refinement, h]⟩
  · exact ⟨[], by simp [process_refinement, h]⟩

/-- The function-call branch only ever appends (at most) its call id to
the order list. -/
theorem process_function_call_order (fc : Json) (s : ToolDisplayState) :
    ∃ t, (process_function_call fc s).2.tool_order = s.tool_order ++ t := by
  rcases h : lookupA s.tools_by_key (call_id_of fc (fr_tool_name fc)) with _ | m
  · exact ⟨[call_id_of fc (fr_tool_name fc)], by simp [process_function_call, h]⟩
  · exact ⟨[], by simp [process_function_call, h]⟩

/-- The refinement branch preserves all existing records. -/
theorem process_refinement_keeps (e : Json) (s : ToolDisplayState) (k : String)
    (h : (lookupA s.tools_by_key k).isSome = true) :
    (lookupA (process_refinement e s).2.tools_by_key k).isSome = true :=
  lookupA_insertA_isSome_mono _ _ _ _ h

/-- The function-call branch preserves all existing records. -/
theorem process_function_call_keeps (fc : Json) (s : ToolDisplayState)
    (k : String) (h : (lookupA s.tools_by_key k).isSome = true) :
    (lookupA (process_function_call fc s).2.tools_by_key k).isSome = true := by
  rcases h0 : lookupA s.tools_by_key (call_id_of fc (fr_tool_name fc)) with _ | m <;>
    · simp only [process_function_call, h0]
      exact lookupA_insertA_isSome_mono _ _ _ _ h

/-- The function-response branch preserves all existing records. -/
theorem process_function_response_keeps (fr : Json) (s : ToolDisplayState)
    (k : String) (h : (lookupA s.tools_by_key k).isSome = true) :
    (lookupA (process_function_response fr s).2.tools_by_key k).isSome = true :=
  lookupA_insertA_isSome_mono _ _ _ _ h

/-- C7: ordering stability.  (i) The ordered accessor returns the records
in `tool_order` (first-seen) sequence.  (ii) Processing any event only
appends to `tool_order`: the previous order is always a prefix, so
existing records never reorder (in particular not on a pending-to-done
transition).  (iii) Existing records are never dropped.  (iv) When an
event creates no new entry (the order length is unchanged), the order is
exactly the same sequence. -/
theorem C7_ordering_stability :
    (∀ s : ToolDisplayState, get_ordered_tool_messages s =
        s.tool_order.filterMap (fun k => lookupA s.tools_by_key k)) ∧
    (∀ (e : Json) (s : ToolDisplayState),
        ∃ t, (process_event e s).2.tool_order = s.tool_order ++ t) ∧
    (∀ (e : Json) (s : ToolDisplayState) (k : String),
        (lookupA s.tools_by_key k).isSome = true →
        (lookupA (process_event e s).2.tools_by_key k).isSome = true) ∧
    (∀ (e : Json) (s : ToolDisplayState),
        (process_event e s).2.tool_order.length = s.tool_order.length →
        (process_event e s).2.tool_order = s.tool_order) := by
  have horder : ∀ (e : Json) (s : ToolDisplayState),
      ∃ t, (process_event e s).2.tool_order = s.tool_order ++ t := by
    intro e s
    rcases process_event_shape e s with hs | hs | hs | hs
    · rw [hs]; exact process_refinement_order e s
    · rw [hs]; exact process_function_call_order _ s
    · rw [hs]
      exact ⟨_, (process_function_response_tools _ s).2.2⟩
    · rw [hs]; exact ⟨[], by simp⟩
  refine ⟨fun s => rfl, horder, ?_, ?_⟩
  · intro e s k h
    rcases process_event_shape e s with hs | hs | hs | hs
    · rw [hs]; exact process_refinement_keeps e s k h
    · rw [hs]; exact process_function_call_keeps _ s k h
    · rw [hs]; exact process_function_response_keeps _ s k h
    · rw [hs]; exact h
  · intro e s hlen
    rcases horder e s with ⟨t, ht⟩
    rw [ht] at hlen ⊢
    have ht0 : t = [] := by
      have := hlen
      simpa [List.length_append] using this
    simp [ht0]

/-- Concrete instance of C7 (iv): a text event creates no entry and leaves
the (empty) order unchanged. -/
theorem C7_ordering_stability_witness :
    (process_event (textEvent ("aileen3_agent") (Json.str ("hi")))
        init_tool_display_state).2.tool_order =
      init_tool_display_state.tool_order :=
  C7_ordering_stability.2.2.2
    (textEvent ("aileen3_agent") (Json.str ("hi"))) init_tool_display_state (by rfl)

/-- C8: refinement-author handling.  For every event authored by the
briefing-refinement agent: no text fragment is returned, the single
fixed-key record exists afterwards, its status is `done` exactly when the
event is final (finish reason `STOP`) or carries no partial marker
(`partial` absent or `False`) and `pending` otherwise, other records are
untouched, and the fixed key is appended to the order only on creation. -/
theorem C8_refinement_author (e : Json) (s : ToolDisplayState)
    (h : (e.get ("author")).eqStr ("briefing_refinement_agent") = true) :
    ((process_event e s).1 = none ∧
     (lookupA (process_event e s).2.tools_by_key ("__briefing_refinement__")).isSome
        = true ∧
     record_status (process_event e s).2 ("__briefing_refinement__") =
       Json.str (if (e.get ("finishReason")).eqStr ("STOP") ||
                    (e.get ("partial")).isNull || (e.get ("partial")).isFalse
                 then "done" else "pending") ∧
     (∀ k', k' ≠ "__briefing_refinement__" →
        lookupA (process_event e s).2.tools_by_key k' =
          lookupA s.tools_by_key k') ∧
     (process_event e s).2.tool_order = s.tool_order ++
        (if (lookupA s.tools_by_key ("__briefing_refinement__")).isSome then []
         else ["__briefing_refinement__"])) := by
  rw [process_event_refinement e s h]
  refine ⟨?_, ?_, ?_, ?_, ?_⟩
  · rfl
  · exact lookupA_insertA_isSome _ _ _
  · rcases h0 : lookupA s.tools_by_key ("__briefing_refinement__") with _ | m <;>
      simp [record_status, process_refinement, h0]
  · intro k' hk
    exact lookupA_insertA_ne _ _ _ _ hk
  · rcases h0 : lookupA s.tools_by_key ("__briefing_refinement__") with _ | m <;>
      simp [process_refinement, h0]

/-- Concrete instance of C8: a partial refinement event yields no
fragment. -/
theorem C8_refinement_author_witness :
    (process_event (Json.obj [("author", Json.str ("briefing_refinement_agent")),
        ("partial", Json.bool true)]) init_tool_display_state).1 = none :=
  (C8_refinement_author
    (Json.obj [("author", Json.str ("briefing_refinement_agent")),
      ("partial", Json.bool true)]) init_tool_display_state (by rfl)).1

/-- The author field of a constructed event. -/
@[simp] theorem get_author_mkPartEvent (author : String) (parts : List Json) :
    (mkPartEvent author parts).get ("author") = Json.str author := by
  simp [mkPartEvent, Json.get, lookupA]

/-- The first part of a constructed event with at least one part. -/
@[simp] theorem first_part_cons (author : String) (p : Json) (rest : List Json) :
    first_part (mkPartEvent author (p :: rest)) = pyOr p (Json.obj []) := by
  simp [first_part, mkPartEvent, Json.get, lookupA, pyOr]

/-- C9: only the first content part is inspected.  (i) Processing an event
equals processing the event restricted to its first part, so calls,
responses or text in later parts are ignored entirely (they can neither
touch the state nor yield a fragment).  (ii) An event with no parts is a
no-op returning nothing.  (iii) An event whose first part matches none of
the three shapes (no truthy function call, no truthy function response,
no `text` key) is a no-op returning nothing. -/
theorem C9_first_part_only :
    (∀ (author : String) (p : Json) (rest : List Json) (s : ToolDisplayState),
        author ≠ "briefing_refinement_agent" →
        process_event (mkPartEvent author (p :: rest)) s =
          process_event (mkPartEvent author [p]) s) ∧
    (∀ (author : String) (s : ToolDisplayState),
        author ≠ "briefing_refinement_agent" →
        process_event (mkPartEvent author []) s = (none, s)) ∧
    (∀ (author : String) (p : Json) (rest : List Json) (s : ToolDisplayState),
        author ≠ "briefing_refinement_agent" →
        truthy (pyOr (p.get ("function_call")) (p.get ("functionCall"))) = false →
        truthy (pyOr (p.get ("function_response")) (p.get ("functionResponse")))
          = false →
        p.hasKey ("text") = false →
        process_event (mkPartEvent author (p :: rest)) s = (none, s)) := by
  refine ⟨?_, ?_, ?_⟩
  · intro author p rest s ha
    have hb : (author == "briefing_refinement_agent") = false :=
      beq_eq_false_iff_ne.mpr ha
    unfold process_event
    simp [Json.eqStr, hb, first_part_cons]
  · intro author s ha
    exact process_event_no_parts author s ha
  · intro author p rest s ha hfc hfr ht
    have hb : (author == "briefing_refinement_agent") = false :=
      beq_eq_false_iff_ne.mpr ha
    unfold process_event
    simp only [get_author_mkPartEvent, first_part_cons, Json.eqStr, hb]
    by_cases hp : truthy p = true
    · rw [show pyOr p (Json.obj []) = p from by simp [pyOr, hp]]
      simp [hp, hfc, hfr, ht]
    · have hp0 : truthy p = false := by simpa using hp
      rw [show pyOr p (Json.obj []) = Json.obj [] from by simp [pyOr, hp0]]
      simp

/-- Concrete instance of C9 (iii): an unclassifiable first part is a
no-op. -/
theorem C9_first_part_only_witness :
    process_event (mkPartEvent ("aileen3_agent")
        [Json.obj [("other", Json.str ("x"))],
         Json.obj [("text", Json.str ("ignored"))]]) init_tool_display_state =
      (none, init_tool_display_state) :=
  C9_first_part_only.2.2 ("aileen3_agent") (Json.obj [("other", Json.str ("x"))])
    [Json.obj [("text", Json.str ("ignored"))]] init_tool_display_state
    (by decide) (by rfl) (by rfl) (by rfl)

/-- The fragment, suppression flag and tick map of the function-response
branch are those of `fr_render`/`fr_ticks`. -/
theorem process_function_response_render (fr : Json) (s : ToolDisplayState) :
    ((process_function_response fr s).1 =
      (fr_render (fr_tool_name fr) (fr_response fr) (fr_structured fr)
        (lookupA (fr_ticks s fr) (fr_key s fr)) s.suppress_text).2.1 ∧
     (process_function_response fr s).2.suppress_text =
      (fr_render (fr_tool_name fr) (fr_response fr) (fr_structured fr)
        (lookupA (fr_ticks s fr) (fr_key s fr)) s.suppress_text).2.2 ∧
     (process_function_response fr s).2.fake_progress_ticks = fr_ticks s fr) :=
  ⟨rfl, rfl, rfl⟩

/-- C6: visual-artifact suppression.  (i) A slide-extraction response with
at least one decodable slide returns the rendered slide payload as the
fragment and turns `suppress_text` on.  (ii) A `translate_slide` response
with a decodable image returns the image tag as the fragment and turns
`suppress_text` on.  (iii) While `suppress_text` is on, a text part yields
no fragment (state unchanged); (iv) with it off, the text value is
returned verbatim. -/
theorem C6_visual_artifact_suppression :
    (∀ (author : String) (fr : Json) (s : ToolDisplayState),
        author ≠ "briefing_refinement_agent" → truthy fr = true →
        (fr_tool_name fr = "start_slide_extraction" ∨
         fr_tool_name fr = "get_extracted_slides") →
        normalize_slide_entries (pyOr (fr_structured fr) (fr_response fr)) ≠ [] →
        ((process_event (frEvent author fr) s).1 =
           some (Json.str (slide_detected_text
             (normalize_slide_entries (pyOr (fr_structured fr) (fr_response fr))))) ∧
         (process_event (frEvent author fr) s).2.suppress_text = true)) ∧
    (∀ (author : String) (fr : Json) (s : ToolDisplayState) (uri : String),
        author ≠ "briefing_refinement_agent" → truthy fr = true →
        fr_tool_name fr = "translate_slide" →
        translate_data_uri (fr_structured fr) (fr_response fr) = some uri →
        ((process_event (frEvent author fr) s).1 =
           some (Json.str ((image_md_from_data_uri (Json.str uri)
             ("Translated slide")).getD ("_Translated slide image available._"))) ∧
         (process_event (frEvent author fr) s).2.suppress_text = true)) ∧
    (∀ (author : String) (t : Json) (s : ToolDisplayState),
        author ≠ "briefing_refinement_agent" → s.suppress_text = true →
        process_event (textEvent author t) s = (none, s)) ∧
    (∀ (author : String) (t : Json) (s : ToolDisplayState),
        author ≠ "briefing_refinement_agent" → s.suppress_text = false →
        process_event (textEvent author t) s = (some t, s)) := by
  refine ⟨?_, ?_, ?_, ?_⟩
  · intro author fr s ha hfr htool hs
    rw [process_event_fr author fr s ha hfr,
        (process_function_response_render fr s).1,
        (process_function_response_render fr s).2.1]
    rcases hcase : normalize_slide_entries (pyOr (fr_structured fr) (fr_response fr))
      with _ | ⟨a, l⟩
    · exact absurd hcase hs
    · rcases htool with h | h <;> simp [fr_render, h, hcase]
  · intro author fr s uri ha hfr htool htr
    rw [process_event_fr author fr s ha hfr,
        (process_function_response_render fr s).1,
        (process_function_response_render fr s).2.1]
    simp [fr_render, htool, htr]
  · intro author t s ha hsup
    rw [process_event_text author t s ha, hsup]
    simp
  · intro author t s ha hsup
    rw [process_event_text author t s ha, hsup]
    simp

/-- A concrete slide-extraction response with one decodable slide. -/
def frSlideW : Json :=
  Json.obj [("id", Json.str ("s1")), ("name", Json.str ("get_extracted_slides")),
    ("response", Json.obj [("structuredContent", Json.obj [("slides",
      Json.arr [Json.obj [("image",
        Json.str ("data:image/png;base64,AAAA"))]])])])]

/-- Concrete instance of C6 (i): the slide response suppresses later text. -/
theorem C6_visual_artifact_suppression_witness :
    (process_event (frEvent ("aileen3_agent") frSlideW)
        init_tool_display_state).2.suppress_text = true :=
  (C6_visual_artifact_suppression.1 ("aileen3_agent") frSlideW
      init_tool_display_state (by decide) (by rfl) (Or.inr (by rfl))
      (fun hcontra => absurd (congrArg List.length hcontra) (by decide))).2

/-- The status metadata stored by the function-response branch is
`fr_status_str`. -/
theorem process_function_response_status (fr : Json) (s : ToolDisplayState) :
    record_status (process_function_response fr s).2 (fr_key s fr) =
      Json.str (fr_status_str fr) := by
  unfold record_status
  rw [show lookupA (process_function_response fr s).2.tools_by_key (fr_key s fr) =
        some (fr_new_record fr s) from lookupA_insertA_self _ _ _]
  exact get_objSet_self _ _ _

/-- A function response for a fetch-like tool whose structured status is
the empty string. -/
def frEmptyStatusW : Json :=
  Json.obj [("id", Json.str ("x1")), ("name", Json.str ("fetch")),
    ("response", Json.obj [("structuredContent",
      Json.obj [("status", Json.str (""))])])]

/-- A function response for a fetch-like tool whose structured status is
`pending`. -/
def frPendingW : Json :=
  Json.obj [("id", Json.str ("x2")), ("name", Json.str ("fetch")),
    ("response", Json.obj [("structuredContent",
      Json.obj [("status", Json.str ("pending"))])])]

/-- C5 counterexample.  (i) A present status field equal to the empty
string is neither `"done"` nor absent, yet the record is set to `done`
(the code tests truthiness, not presence).  (ii) A `pending` response of a
non-media tool sets the record to `pending` but does not increment any
pending-tick counter (the increment exists only in the media-analysis
branch), so the tick map stays empty. -/
theorem C5_status_rule_counterexample :
    record_status (process_event (frEvent ("aileen3_agent") frEmptyStatusW)
        init_tool_display_state).2 ("x1") = Json.str ("done") ∧
    record_status (process_event (frEvent ("aileen3_agent") frPendingW)
        init_tool_display_state).2 ("x2") = Json.str ("pending") ∧
    (process_event (frEvent ("aileen3_agent") frPendingW)
        init_tool_display_state).2.fake_progress_ticks = [] :=
  ⟨rfl, rfl, rfl⟩

/-- C5 (amended): for every function response, the resolved record's
status is `done` iff the structured status is absent or falsy or equals
`"done"`, and `pending` otherwise; the pending-tick counter of the
canonical key is incremented exactly when the tool is one of the two
media-analysis tools and the status is truthy and not `"done"`, and the
tick map is unchanged in every other case. -/
theorem C5_status_rule_amended (author : String) (fr : Json)
    (s : ToolDisplayState) (ha : author ≠ "briefing_refinement_agent")
    (hfr : truthy fr = true) :
    (record_status (process_event (frEvent author fr) s).2 (fr_key s fr) =
       Json.str (if truthy (fr_status_value fr) then
                   (if (fr_status_value fr).eqStr ("done") then "done"
                    else "pending")
                 else "done") ∧
     (process_event (frEvent author fr) s).2.fake_progress_ticks =
       fr_ticks s fr ∧
     ((fr_tool_name fr = "start_media_analysis" ∨
       fr_tool_name fr = "get_media_analysis_result") →
      truthy (fr_status_value fr) = true →
      (fr_status_value fr).eqStr ("done") = false →
      lookupA (process_event (frEvent author fr) s).2.fake_progress_ticks
          (fr_key s fr) =
        some (((lookupA s.fake_progress_ticks (fr_key s fr)).getD 0) + 1)) ∧
     (((fr_tool_name fr ≠ "start_media_analysis" ∧
        fr_tool_name fr ≠ "get_media_analysis_result") ∨
       truthy (fr_status_value fr) = false ∨
       (fr_status_value fr).eqStr ("done") = true) →
      (process_event (frEvent author fr) s).2.fake_progress_ticks =
        s.fake_progress_ticks)) := by
  rw [process_event_fr author fr s ha hfr]
  refine ⟨process_function_response_status fr s, rfl, ?_, ?_⟩
  · intro htool hst hdone
    have hcond : ((fr_tool_name fr == "start_media_analysis" ||
        fr_tool_name fr == "get_media_analysis_result") &&
        truthy (fr_status_value fr) && !(fr_status_value fr).eqStr ("done"))
          = true := by
      rcases htool with h | h <;> simp [h, hst, hdone]
    rw [show (process_function_response fr s).2.fake_progress_ticks =
          fr_ticks s fr from rfl]
    unfold fr_ticks
    rw [if_pos hcond]
    exact lookupA_insertA_self _ _ _
  · intro hcase
    have hcond : ((fr_tool_name fr == "start_media_analysis" ||
        fr_tool_name fr == "get_media_analysis_result") &&
        truthy (fr_status_value fr) && !(fr_status_value fr).eqStr ("done"))
          = false := by
      rcases hcase with ⟨h1, h2⟩ | h | h
      · simp [beq_eq_false_iff_ne.mpr h1, beq_eq_false_iff_ne.mpr h2]
      · simp [h]
      · simp [h]
    rw [show (process_function_response fr s).2.fake_progress_ticks =
          fr_ticks s fr from rfl]
    unfold fr_ticks
    rw [if_neg]
    simp [hcond]

/-- Concrete instance of the amended C5: a media-analysis poll increments
the tick counter. -/
theorem C5_status_rule_amended_witness :
    lookupA (process_event (frEvent ("aileen3_agent")
        (Json.obj [("id", Json.str ("m1")),
          ("name", Json.str ("get_media_analysis_result")),
          ("response", Json.obj [("structuredContent",
            Json.obj [("status", Json.str ("pending"))])])]))
        init_tool_display_state).2.fake_progress_ticks ("m1") = some 1 :=
  (C5_status_rule_amended ("aileen3_agent")
      (Json.obj [("id", Json.str ("m1")),
        ("name", Json.str ("get_media_analysis_result")),
        ("response", Json.obj [("structuredContent",
          Json.obj [("status", Json.str ("pending"))])])])
      init_tool_display_state (by decide) (by rfl)).2.2.1
    (Or.inr (by rfl)) (by rfl) (by rfl)

/-- C4: one-time preparation gating.  When the session state store does
not contain `briefing_refined`, the preparation step is invoked and all of
its emitted events are forwarded to the caller (ahead of the per-turn
events); when the key is present, the run is identical to one in which the
preparation step emits nothing — it is not invoked — so once the key has
been written no later invocation of the gate re-invokes the preparation
step. -/
theorem C4_one_time_preparation {α : Type} (briefing_events message_events : List α)
    (ctx : PrepCtx) :
    ((lookupA ((ctx.session_state).getD []) ("briefing_refined") = none →
       (run_conditional_prep briefing_events message_events ctx).1 =
         briefing_events ++
           (run_conditional_prep ([] : List α) message_events ctx).1) ∧
     (∀ v, lookupA ((ctx.session_state).getD []) ("briefing_refined") = some v →
       run_conditional_prep briefing_events message_events ctx =
         run_conditional_prep ([] : List α) message_events ctx)) := by
  constructor
  · intro h
    rcases hu : prep_user_text ctx with _ | t <;>
      rcases hs : ctx.session_state with _ | st <;>
        simp_all [run_conditional_prep]
  · intro v h
    rcases hu : prep_user_text ctx with _ | t <;>
      rcases hs : ctx.session_state with _ | st <;>
        simp_all [run_conditional_prep]

/-- A context whose state already contains `briefing_refined`. -/
def prepCtxDone : PrepCtx :=
  { session_state := some [("briefing_refined", Json.str ("yes"))],
    user_content := some [{ text := some ("hi"), function_call := none,
                            thought_signature := none }] }

/-- Concrete instance of C4: with the key present, the gate behaves as if
the preparation step emitted nothing. -/
theorem C4_one_time_preparation_witness :
    run_conditional_prep [1] [2] prepCtxDone =
      run_conditional_prep ([] : List Nat) [2] prepCtxDone :=
  (C4_one_time_preparation [1] [2] prepCtxDone).2 (Json.str ("yes")) (by rfl)

/-- The reverse scan of the claim wording for C2 condition (c): a watched
event with non-empty (not merely non-blank) text since the last user
event.  This follows the claim text, for comparison with the code. -/
def claim_text_since_rev (watched : String) : List LEvent → Bool
  | [] => false
  | e :: rest =>
      if e.author == "user" then false
      else if e.author == watched && extract_text e ≠ "" then true
      else claim_text_since_rev watched rest

/-- The "has output" predicate exactly as the C2 claim words it: (a) the
designated state key holds a non-empty value, or (b) the latest event's
own text content is non-empty, or (c) some watched event after the most
recent user event has non-empty text.  This follows the claim text, for
comparison with the code. -/
def claimed_has_output (cfg : LoopExitCfg) (ctx : LCtx) (latest : LEvent) : Bool :=
  (match cfg.response_state_key, ctx.session with
   | some k, some s =>
       (match s.state with
        | some st =>
            (match lookupA st k with
             | some (.str v) => v ≠ ""
             | some v => truthy v
             | none => false)
        | none => false)
   | _, _ => false) ||
  extract_text latest ≠ "" ||
  (match ctx.session with
   | some s => claim_text_since_rev cfg.watched_agent_name s.events.reverse
   | none => false)

/-- A user event carrying plain text. -/
def evUserB : LEvent :=
  { id := "u1", author := "user", final := true,
    parts := some [{ text := some ("hello"), function_call := none,
                     thought_signature := none }], escalate := false }

/-- A final watched-agent event whose only text is a single space:
non-empty, but blank after stripping. -/
def evAssistantBlank : LEvent :=
  { id := "a1", author := "aileen3_agent", final := true,
    parts := some [{ text := some (" "), function_call := none,
                     thought_signature := none }], escalate := false }

/-- A loop-exit configuration with no designated state key. -/
def cfgB : LoopExitCfg :=
  { watched_agent_name := "aileen3_agent", response_state_key := none }

/-- The context for the whitespace counterexample. -/
def ctxB : LCtx :=
  { session := some { events := [evUserB, evAssistantBlank], state := some [] },
    invocation_id := "inv1" }

/-- C2 counterexample: the latest watched event exists and is final, and
its own text content " " is non-empty, so the claim as stated requires
exactly one Escalate — but the code strips whitespace before testing and
emits nothing on this input. -/
theorem C2_loop_escalation_counterexample :
    latest_event_from_assistant ("aileen3_agent") ctxB = some evAssistantBlank ∧
    evAssistantBlank.final = true ∧
    claimed_has_output cfgB ctxB evAssistantBlank = true ∧
    (run_loop_exit cfgB ctxB).1 = [] :=
  ⟨rfl, rfl, rfl, rfl⟩

/-- The four possible outcomes of one loop-exit round: no watched event,
watched event not final, stall recovery (patch, no escalation), or exactly
one escalation. -/
theorem run_loop_exit_cases (cfg : LoopExitCfg) (ctx : LCtx) :
    (latest_event_from_assistant cfg.watched_agent_name ctx = none ∧
       run_loop_exit cfg ctx = ([], ctx)) ∨
    (∃ latest, latest_event_from_assistant cfg.watched_agent_name ctx = some latest ∧
       latest.final = false ∧ run_loop_exit cfg ctx = ([], ctx)) ∨
    (∃ latest, latest_event_from_assistant cfg.watched_agent_name ctx = some latest ∧
       latest.final = true ∧ loop_has_output cfg ctx latest = false ∧
       run_loop_exit cfg ctx =
         ([], (patch_missing_signatures cfg.watched_agent_name ctx).1)) ∨
    (∃ latest, latest_event_from_assistant cfg.watched_agent_name ctx = some latest ∧
       latest.final = true ∧ loop_has_output cfg ctx latest = true ∧
       run_loop_exit cfg ctx = ([escalate_event ctx], ctx)) := by
  rcases hl : latest_event_from_assistant cfg.watched_agent_name ctx with _ | latest
  · left
    refine ⟨rfl, ?_⟩
    unfold run_loop_exit
    rw [hl]
  · by_cases hf : latest.final = true
    · by_cases ho : loop_has_output cfg ctx latest = true
      · right; right; right
        refine ⟨latest, rfl, hf, ho, ?_⟩
        unfold run_loop_exit
        rw [hl]
        simp [hf, ho]
      · have ho0 : loop_has_output cfg ctx latest = false := by simpa using ho
        right; right; left
        refine ⟨latest, rfl, hf, ho0, ?_⟩
        unfold run_loop_exit
        rw [hl]
        simp [hf, ho0]
    · have hf0 : latest.final = false := by simpa using hf
      right; left
      refine ⟨latest, rfl, hf0, ?_⟩
      unfold run_loop_exit
      rw [hl]
      simp [hf0]

/-- C2 (amended): with "non-empty" read as "non-blank after stripping
whitespace" (and the state value read through the same truthiness test the
code applies), the escalation behaviour is as claimed: the controller
escalates — emitting exactly one Escalate event — iff the latest watched
event exists, is final, and the has-output disjunction holds; it emits
nothing when there is no watched event or the latest one is not final;
and has-output is exactly the three-way disjunction (a) designated key
holds a truthy value, (b) the latest text is non-blank, (c) some watched
event since the last user event has non-blank text. -/
theorem C2_loop_escalation_amended (cfg : LoopExitCfg) (ctx : LCtx) :
    (((run_loop_exit cfg ctx).1 ≠ [] →
       ∃ latest,
         latest_event_from_assistant cfg.watched_agent_name ctx = some latest ∧
         latest.final = true ∧ loop_has_output cfg ctx latest = true ∧
         (run_loop_exit cfg ctx).1 = [escalate_event ctx]) ∧
     (∀ latest,
        latest_event_from_assistant cfg.watched_agent_name ctx = some latest →
        latest.final = true → loop_has_output cfg ctx latest = true →
        run_loop_exit cfg ctx = ([escalate_event ctx], ctx)) ∧
     (latest_event_from_assistant cfg.watched_agent_name ctx = none →
        run_loop_exit cfg ctx = ([], ctx)) ∧
     (∀ latest,
        latest_event_from_assistant cfg.watched_agent_name ctx = some latest →
        latest.final = false → run_loop_exit cfg ctx = ([], ctx)) ∧
     (∀ latest, loop_has_output cfg ctx latest = true ↔
        (loop_has_state_response cfg ctx = true ∨
         pyStrip (extract_text latest) ≠ "" ∨
         has_text_response_since_last_user cfg.watched_agent_name ctx = true)) ∧
     (loop_has_state_response cfg ctx = true ↔
        ∃ k, cfg.response_state_key = some k ∧ k ≠ "" ∧
          has_nonempty_response ctx k = true)) := by
  refine ⟨?_, ?_, ?_, ?_, ?_, ?_⟩
  · intro hne
    rcases run_loop_exit_cases cfg ctx with ⟨_, hr⟩ | ⟨l, _, _, hr⟩ |
      ⟨l, _, _, _, hr⟩ | ⟨l, h1, h2, h3, hr⟩
    · rw [hr] at hne; simp at hne
    · rw [hr] at hne; simp at hne
    · rw [hr] at hne; simp at hne
    · exact ⟨l, h1, h2, h3, by rw [hr]⟩
  · intro latest hl hf ho
    unfold run_loop_exit
    rw [hl]
    simp [hf, ho]
  · intro hl
    unfold run_loop_exit
    rw [hl]
  · intro latest hl hf
    unfold run_loop_exit
    rw [hl]
    simp [hf]
  · intro latest
    simp [loop_has_output]
  · rcases hk : cfg.response_state_key with _ | k
    · simp [loop_has_state_response, hk]
    · by_cases hke : k = ""
      · subst hke
        simp [loop_has_state_response, hk]
      · simp [loop_has_state_response, hk, hke]

/-- A final watched-agent event with real (non-blank) text. -/
def evDoneC : LEvent :=
  { id := "a2", author := "aileen3_agent", final := true,
    parts := some [{ text := some ("done!"), function_call := none,
                     thought_signature := none }], escalate := false }

/-- The context for the Scenario C instance: user message then a final
watched response with text. -/
def ctxC : LCtx :=
  { session := some { events := [evUserB, evDoneC], state := some [] },
    invocation_id := "inv2" }

/-- Concrete instance of the amended C2: a final watched event with real
text makes the controller emit exactly the escalation event (Scenario C). -/
theorem C2_loop_escalation_amended_witness :
    run_loop_exit cfgB ctxC = ([escalate_event ctxC], ctxC) :=
  (C2_loop_escalation_amended cfgB ctxC).2.1 evDoneC (by rfl) (by rfl) (by rfl)

/-- C3: StallRecovery.  When the latest watched event is final but the
has-output test is false, the controller emits no event at all (in
particular no Escalate) and returns the context with the signature patch
applied, so the loop continues.  The patch pass itself: parts without a
function call are untouched; a part whose call- or part-level signature is
missing gets both set to the fixed placeholder; a part with both
signatures present is untouched; events of other authors are untouched. -/
theorem C3_stall_recovery (cfg : LoopExitCfg) (ctx : LCtx) (latest : LEvent)
    (hl : latest_event_from_assistant cfg.watched_agent_name ctx = some latest)
    (hf : latest.final = true)
    (ho : loop_has_output cfg ctx latest = false) :
    (run_loop_exit cfg ctx =
       ([], (patch_missing_signatures cfg.watched_agent_name ctx).1) ∧
     (∀ p : LPart, p.function_call = none → patch_part p = (p, 0)) ∧
     (∀ (p : LPart) (fc : LFunctionCall), p.function_call = some fc →
        (truthyOptStr fc.thought_signature = false ∨
         truthyOptBytes p.thought_signature = false) →
        ((patch_part p).1.function_call =
           some { thought_signature := some DUMMY_SIGNATURE } ∧
         (patch_part p).1.thought_signature = some DUMMY_SIGNATURE_BYTES ∧
         (patch_part p).2 = 1)) ∧
     (∀ (p : LPart) (fc : LFunctionCall), p.function_call = some fc →
        truthyOptStr fc.thought_signature = true →
        truthyOptBytes p.thought_signature = true →
        patch_part p = (p, 0)) ∧
     (∀ e : LEvent, e.author ≠ cfg.watched_agent_name →
        patch_event cfg.watched_agent_name e = (e, 0))) := by
  refine ⟨?_, ?_, ?_, ?_, ?_⟩
  · unfold run_loop_exit
    rw [hl]
    simp [hf, ho]
  · intro p h
    simp [patch_part, h]
  · intro p fc h hmiss
    rcases hmiss with h1 | h1 <;> simp [patch_part, h, h1]
  · intro p fc h h1 h2
    simp [patch_part, h, h1, h2]
  · intro e he
    simp [patch_event, he]

/-- A final watched-agent event with no text and one function call missing
its provenance signature (Scenario B). -/
def evStallB : LEvent :=
  { id := "a3", author := "aileen3_agent", final := true,
    parts := some [{ text := none,
                     function_call := some { thought_signature := none },
                     thought_signature := none }], escalate := false }

/-- The context for Scenario B. -/
def ctxStallB : LCtx :=
  { session := some { events := [evUserB, evStallB], state := some [] },
    invocation_id := "inv3" }

/-- Concrete instance of C3 (Scenario B): the stalled round emits nothing
and returns the patched context. -/
theorem C3_stall_recovery_witness :
    run_loop_exit cfgB ctxStallB =
      ([], (patch_missing_signatures ("aileen3_agent") ctxStallB).1) :=
  (C3_stall_recovery cfgB ctxStallB evStallB (by rfl) (by rfl) (by rfl)).1

/-- The placeholder call signature is truthy. -/
theorem dummy_sig_truthy : truthyOptStr (some DUMMY_SIGNATURE) = true := by decide

/-- The placeholder part signature bytes are truthy. -/
theorem dummy_sig_bytes_truthy :
    truthyOptBytes (some DUMMY_SIGNATURE_BYTES) = true := by decide

/-- Patching one part is idempotent. -/
theorem patch_part_idem (p : LPart) :
    patch_part (patch_part p).1 = ((patch_part p).1, 0) := by
  rcases hfc : p.function_call with _ | fc
  · simp [patch_part, hfc]
  · by_cases hm : (!truthyOptStr fc.thought_signature ||
        !truthyOptBytes p.thought_signature) = true
    · simp [patch_part, hfc, hm, dummy_sig_truthy, dummy_sig_bytes_truthy]
    · have hm0 : (!truthyOptStr fc.thought_signature ||
          !truthyOptBytes p.thought_signature) = false := by simpa using hm
      simp [patch_part, hfc, hm0]

/-- Every function-call part coming out of the patch pass carries truthy
signatures on both the call and the part. -/
theorem patch_part_sig (p : LPart) (fc' : LFunctionCall)
    (h : (patch_part p).1.function_call = some fc') :
    truthyOptStr fc'.thought_signature = true ∧
    truthyOptBytes (patch_part p).1.thought_signature = true := by
  rcases hfc : p.function_call with _ | fc
  · rw [show (patch_part p).1 = p from by simp [patch_part, hfc], hfc] at h
    exact Option.noConfusion h
  · by_cases hm : (!truthyOptStr fc.thought_signature ||
        !truthyOptBytes p.thought_signature) = true
    · have hp' : (patch_part p).1 =
          { text := p.text,
            function_call := some { thought_signature := some DUMMY_SIGNATURE },
            thought_signature := some DUMMY_SIGNATURE_BYTES } := by
        simp [patch_part, hfc, hm]
      rw [hp'] at h
      have hfc' : fc' = { thought_signature := some DUMMY_SIGNATURE } :=
        (Option.some.inj h).symm
      subst hfc'
      rw [hp']
      exact ⟨dummy_sig_truthy, dummy_sig_bytes_truthy⟩
    · have hm0 : (!truthyOptStr fc.thought_signature ||
          !truthyOptBytes p.thought_signature) = false := by simpa using hm
      have hok : truthyOptStr fc.thought_signature = true ∧
          truthyOptBytes p.thought_signature = true := by
        simpa [Bool.or_eq_false_iff] using hm0
      have hp' : patch_part p = (p, 0) := by simp [patch_part, hfc, hm0]
      rw [hp'] at h
      have hfc' : fc' = fc := by
        rw [hfc] at h
        exact (Option.some.inj h).symm
      subst hfc'
      rw [hp']
      exact hok

/-- A list of parts that patching leaves alone is mapped to itself with a
zero count. -/
theorem patch_list_idem (L : List LPart) (h : ∀ q ∈ L, patch_part q = (q, 0)) :
    (L.map patch_part).map Prod.fst = L ∧
    ((L.map patch_part).map Prod.snd).sum = 0 := by
  induction L with
  | nil => simp
  | cons a l ih =>
      have ha := h a (List.mem_cons_self a l)
      have ih' := ih (fun q hq => h q (List.mem_cons_of_mem a hq))
      simp only [List.map_map] at ih'
      simp [ha, ih'.1, ih'.2]

/-- Patching one event is idempotent. -/
theorem patch_event_idem (w : String) (e : LEvent) :
    patch_event w (patch_event w e).1 = ((patch_event w e).1, 0) := by
  obtain ⟨eid, eauthor, efinal, eparts, eesc⟩ := e
  by_cases ha : eauthor = w
  · rcases eparts with _ | ps
    · simp [patch_event, ha]
    · rcases ps with _ | ⟨p, ps'⟩
      · simp [patch_event, ha]
      · simp [patch_event, ha]
        refine ⟨⟨?_, fun a _ => ?_⟩, ?_, ?_⟩
        · simp [patch_part_idem p]
        · simp [patch_part_idem a]
        · simp [patch_part_idem p]
        · apply List.sum_eq_zero
          intro x hx
          rcases List.mem_map.mp hx with ⟨a, ha2, hxa⟩
          rw [← hxa]
          simp [patch_part_idem a]
  · simp [patch_event, ha]

/-- A list of events that patching leaves alone is mapped to itself with a
zero count. -/
theorem patch_events_fixed (w : String) :
    ∀ L : List LEvent, (∀ e ∈ L, patch_event w e = (e, 0)) →
      patch_events w L = (L, 0) := by
  intro L
  induction L with
  | nil => intro _; rfl
  | cons a l ih =>
      intro h
      have ha := h a (List.mem_cons_self a l)
      have ih' := ih (fun e he => h e (List.mem_cons_of_mem a he))
      have i1 := congrArg Prod.fst ih'
      have i2 := congrArg Prod.snd ih'
      unfold patch_events at i1 i2 ⊢
      dsimp only at i1 i2 ⊢
      simp only [List.map_cons, ha, List.sum_cons]
      rw [i1, i2]

/-- C10: the signature-patching pass is idempotent.  After one pass over a
session event log, every function-call part of a watched-agent event
carries a truthy signature on both the call and the enclosing part, and an
immediately repeated pass patches zero entries and leaves every event
unchanged. -/
theorem C10_patch_idempotent (w : String) (evs : List LEvent) :
    (patch_events w (patch_events w evs).1 = ((patch_events w evs).1, 0)) ∧
    (∀ e ∈ (patch_events w evs).1, e.author = w →
      ∀ ps, e.parts = some ps → ∀ p ∈ ps, ∀ fc, p.function_call = some fc →
        truthyOptStr fc.thought_signature = true ∧
        truthyOptBytes p.thought_signature = true) := by
  constructor
  · apply patch_events_fixed
    intro e he
    rcases List.mem_map.mp he with ⟨pr, hpr, he1⟩
    rcases List.mem_map.mp hpr with ⟨e0, he0, he2⟩
    rw [← he1, ← he2]
    exact patch_event_idem w e0
  · intro e he hea ps hps p hp fc hfc
    rcases List.mem_map.mp he with ⟨pr, hpr, he1⟩
    rcases List.mem_map.mp hpr with ⟨e0, he0, he2⟩
    obtain ⟨eid, eauthor, efinal, eparts, eesc⟩ := e0
    by_cases ha : eauthor = w
    · rcases eparts with _ | ps0
      · rw [← he1, ← he2] at hps
        simp [patch_event, ha] at hps
      · rcases ps0 with _ | ⟨q, qs⟩
        · rw [← he1, ← he2] at hps
          simp [patch_event, ha] at hps
          rw [hps] at hp
          exact absurd hp (List.not_mem_nil p)
        · rw [← he1, ← he2] at hps
          simp only [patch_event, ha, ne_eq, not_true_eq_false, if_false,
            List.map_cons] at hps
          have hps2 : ps = (patch_part q).1 ::
              (qs.map patch_part).map Prod.fst := (Option.some.inj hps).symm
          rw [hps2] at hp
          rcases List.mem_cons.mp hp with hpq | hpmem
          · subst hpq
            have hsig := patch_part_sig q fc hfc
            exact ⟨hsig.1, hsig.2⟩
          · rcases List.mem_map.mp hpmem with ⟨pr0, hpr0, hp1⟩
            rcases List.mem_map.mp hpr0 with ⟨p0, hp0, hp2⟩
            have hfc0 : (patch_part p0).1.function_call = some fc := by
              rw [hp2, hp1]; exact hfc
            have hsig := patch_part_sig p0 fc hfc0
            refine ⟨hsig.1, ?_⟩
            rw [← hp1, ← hp2]
            exact hsig.2
    · have he3 : e = LEvent.mk eid eauthor efinal eparts eesc := by
        rw [← he1, ← he2]
        simp [patch_event, ha]
      rw [he3] at hea
      exact absurd hea ha

/-- Concrete instance of C10: re-patching the patched Scenario B log
changes nothing and counts zero. -/
theorem C10_patch_idempotent_witness :
    patch_events ("aileen3_agent")
        (patch_events ("aileen3_agent") [evUserB, evStallB]).1 =
      ((patch_events ("aileen3_agent") [evUserB, evStallB]).1, 0) :=
  (C10_patch_idempotent ("aileen3_agent") [evUserB, evStallB]).1
